import Mathlib

/-!
Shallow embedding of the rust-gb-emu Game Boy emulator core
(CPU, Bus, Timer, interrupts, cartridge header parsing), translated
from the Rust sources, together with theorems settling claims C1-C10
about the program.

Machine integers are modelled as `Nat` with explicit wrap-around
(`% 256` for `u8`, `% 65536` for `u16`) at the points where the Rust
code casts or uses wrapping arithmetic.  Rust panics (out-of-bounds
indexing, `panic!` on undefined opcodes) are modelled by `Option`:
`none` means the Rust code panics.  Fixed-size RAM arrays whose
indices are in bounds by construction of the address decoder are
modelled as total functions `Nat → Nat`; the cartridge ROM, whose
length genuinely varies with `load_rom`, is a `List Nat`.
-/

/-- Wrapping 8-bit subtraction: `a.wrapping_sub(b)` on `u8`
(for `a b < 256` this is exactly the Rust semantics). -/
def wsub8 (a b : Nat) : Nat := (a + 256 - b % 256) % 256

/-- Wrapping 16-bit subtraction: `a.wrapping_sub(b)` on `u16`. -/
def wsub16 (a b : Nat) : Nat := (a + 65536 - b % 65536) % 65536

/-- Pointwise update of a RAM array modelled as a function. -/
def setAt (f : Nat → Nat) (i v : Nat) : Nat → Nat :=
  fun j => if j = i then v else f j

/-! ## Timer (src/timer.rs) -/

/-- Timer state (`struct Timer`). -/
structure Timer where
  internal_counter : Nat
  tima : Nat
  tma : Nat
  tac : Nat
  interrupt_requested : Bool
  deriving Repr, DecidableEq

namespace Timer

/-- `Timer::new` (post-boot internal counter `0xABCC`). -/
def new : Timer :=
  { internal_counter := 0xABCC, tima := 0, tma := 0, tac := 0
    interrupt_requested := false }

/-- `Timer::div`: DIV is the upper 8 bits of the internal counter
(the `as u8` cast is the `% 256`). -/
def div (t : Timer) : Nat := (t.internal_counter >>> 8) % 256

/-- `Timer::timer_enabled`. -/
def timer_enabled (t : Timer) : Bool := t.tac &&& 0x04 != 0

/-- `Timer::get_timer_bit`: the selected bit of the internal counter.
The Rust `match self.tac & 0x03` has arms `0,1,2,3` plus an
`unreachable!` default; since `tac &&& 3 ≤ 3` the final catch-all
arm below is exactly the `3` arm. -/
def get_timer_bit (t : Timer) : Bool :=
  let bit_pos : Nat :=
    match t.tac &&& 0x03 with
    | 0 => 9
    | 1 => 3
    | 2 => 5
    | _ => 7
  t.internal_counter &&& (1 <<< bit_pos) != 0

/-- `Timer::increment_tima`: `overflowing_add(1)` on `u8` overflows
exactly when the sum reaches 256. -/
def increment_tima (t : Timer) : Timer :=
  let new_tima := (t.tima + 1) % 256
  if 256 ≤ t.tima + 1 then
    { t with tima := t.tma, interrupt_requested := true }
  else
    { t with tima := new_tima }

/-- One iteration of the loop body of `Timer::tick`. -/
def tick_one (t : Timer) : Timer :=
  let old_bit := t.get_timer_bit && t.timer_enabled
  let t' := { t with internal_counter := (t.internal_counter + 1) % 65536 }
  let new_bit := t'.get_timer_bit && t'.timer_enabled
  if old_bit && !new_bit then t'.increment_tima else t'

/-- `Timer::tick`: run the loop body once per elapsed cycle. -/
def tick (t : Timer) : Nat → Timer
  | 0 => t
  | n + 1 => (t.tick_one).tick n

/-- `Timer::reset_div`. -/
def reset_div (t : Timer) : Timer :=
  let old_bit := t.get_timer_bit
  let t' := { t with internal_counter := 0 }
  let new_bit := t'.get_timer_bit
  if old_bit && !new_bit && t'.timer_enabled then t'.increment_tima else t'

/-- `Timer::write_tac`. -/
def write_tac (t : Timer) (value : Nat) : Timer :=
  let old_bit := t.get_timer_bit && t.timer_enabled
  let t' := { t with tac := value }
  let new_bit := t'.get_timer_bit && t'.timer_enabled
  if old_bit && !new_bit then t'.increment_tima else t'

/-- `Timer::take_interrupt`: returns the flag and clears it. -/
def take_interrupt (t : Timer) : Bool × Timer :=
  (t.interrupt_requested, { t with interrupt_requested := false })

end Timer

/-! ## Interrupts (src/interrupts.rs) -/

def VBLANK_VECTOR : Nat := 0x0040
def LCD_STAT_VECTOR : Nat := 0x0048
def TIMER_VECTOR : Nat := 0x0050
def SERIAL_VECTOR : Nat := 0x0058
def JOYPAD_VECTOR : Nat := 0x0060

/-- `get_interrupt_vector`: highest-priority pending interrupt. -/
def get_interrupt_vector (ie if_reg : Nat) : Option (Nat × Nat) :=
  let pending := ie &&& if_reg
  if pending &&& 0x01 ≠ 0 then some (VBLANK_VECTOR, 0x01)
  else if pending &&& 0x02 ≠ 0 then some (LCD_STAT_VECTOR, 0x02)
  else if pending &&& 0x04 ≠ 0 then some (TIMER_VECTOR, 0x04)
  else if pending &&& 0x08 ≠ 0 then some (SERIAL_VECTOR, 0x08)
  else if pending &&& 0x10 ≠ 0 then some (JOYPAD_VECTOR, 0x10)
  else none

/-! ## Bus (src/bus.rs) -/

/-- Memory bus state (`struct Bus`).  RAM arrays are total functions;
the ROM is a `List Nat` because `load_rom` interacts with its length. -/
structure Bus where
  rom : List Nat
  vram : Nat → Nat
  external_ram : Nat → Nat
  wram : Nat → Nat
  hram : Nat → Nat
  io : Nat → Nat
  oam : Nat → Nat
  ie : Nat
  serial_output : List Nat
  timer : Timer

namespace Bus

/-- `Bus::new`. -/
def new : Bus :=
  { rom := List.replicate 0x8000 0
    vram := fun _ => 0
    external_ram := fun _ => 0
    wram := fun _ => 0
    hram := fun _ => 0
    io := fun _ => 0
    oam := fun _ => 0
    ie := 0
    serial_output := []
    timer := Timer.new }

/-- `Bus::tick`: advance the timer, then drain its interrupt request
into bit 2 of IF. -/
def tick (b : Bus) (cycles : Nat) : Bus :=
  let t := b.timer.tick cycles
  let (requested, t) := t.take_interrupt
  if requested then
    { b with timer := t, io := setAt b.io 0x0F (b.io 0x0F ||| 0x04) }
  else
    { b with timer := t }

/-- `Bus::load_rom`: copy at most `rom.length` bytes into the front of
the ROM buffer; excess input is ignored. -/
def load_rom (b : Bus) (data : List Nat) : Bus :=
  let len := min data.length b.rom.length
  { b with rom := data.take len ++ b.rom.drop len }

/-- `Bus::read_io`. -/
def read_io (b : Bus) (addr : Nat) : Nat :=
  let offset := addr - 0xFF00
  if addr = 0xFF00 then 0xFF
  else if 0xFF01 ≤ addr ∧ addr ≤ 0xFF02 then b.io offset
  else if addr = 0xFF04 then b.timer.div
  else if addr = 0xFF05 then b.timer.tima
  else if addr = 0xFF06 then b.timer.tma
  else if addr = 0xFF07 then b.timer.tac ||| 0xF8
  else if addr = 0xFF0F then b.io offset ||| 0xE0
  else if 0xFF10 ≤ addr ∧ addr ≤ 0xFF3F then b.io offset
  else if 0xFF40 ≤ addr ∧ addr ≤ 0xFF4B then b.io offset
  else b.io offset

/-- `Bus::read`.  `none` models the Rust panic on an out-of-bounds
ROM index (the only fallible indexing, since the other arrays are
fixed-size and indexed in bounds by the address decoder). -/
def read (b : Bus) (addr : Nat) : Option Nat :=
  if addr ≤ 0x3FFF then b.rom.get? addr
  else if addr ≤ 0x7FFF then b.rom.get? addr
  else if addr ≤ 0x9FFF then some (b.vram (addr - 0x8000))
  else if addr ≤ 0xBFFF then some (b.external_ram (addr - 0xA000))
  else if addr ≤ 0xDFFF then some (b.wram (addr - 0xC000))
  else if addr ≤ 0xFDFF then some (b.wram (addr - 0xE000))
  else if addr ≤ 0xFE9F then some (b.oam (addr - 0xFE00))
  else if addr ≤ 0xFEFF then some 0xFF
  else if addr ≤ 0xFF7F then some (b.read_io addr)
  else if addr ≤ 0xFFFE then some (b.hram (addr - 0xFF80))
  else some b.ie

/-- `Bus::write_io`. -/
def write_io (b : Bus) (addr value : Nat) : Bus :=
  let offset := addr - 0xFF00
  if addr = 0xFF02 then
    let b' := { b with io := setAt b.io offset value }
    if value = 0x81 then
      { b' with serial_output := b'.serial_output ++ [b'.io 0x01] }
    else b'
  else if addr = 0xFF04 then { b with timer := b.timer.reset_div }
  else if addr = 0xFF05 then { b with timer := { b.timer with tima := value } }
  else if addr = 0xFF06 then { b with timer := { b.timer with tma := value } }
  else if addr = 0xFF07 then { b with timer := b.timer.write_tac value }
  else if addr = 0xFF0F then { b with io := setAt b.io offset (value &&& 0x1F) }
  else { b with io := setAt b.io offset value }

/-- `Bus::write`.  ROM-range writes are ignored (MBC stub), so no
write can fail. -/
def write (b : Bus) (addr value : Nat) : Bus :=
  if addr ≤ 0x7FFF then b
  else if addr ≤ 0x9FFF then { b with vram := setAt b.vram (addr - 0x8000) value }
  else if addr ≤ 0xBFFF then { b with external_ram := setAt b.external_ram (addr - 0xA000) value }
  else if addr ≤ 0xDFFF then { b with wram := setAt b.wram (addr - 0xC000) value }
  else if addr ≤ 0xFDFF then { b with wram := setAt b.wram (addr - 0xE000) value }
  else if addr ≤ 0xFE9F then { b with oam := setAt b.oam (addr - 0xFE00) value }
  else if addr ≤ 0xFEFF then b
  else if addr ≤ 0xFF7F then b.write_io addr value
  else if addr ≤ 0xFFFE then { b with hram := setAt b.hram (addr - 0xFF80) value }
  else { b with ie := value }

/-- `Bus::read16` (little-endian). -/
def read16 (b : Bus) (addr : Nat) : Option Nat := do
  let lo ← b.read addr
  let hi ← b.read ((addr + 1) % 65536)
  some ((hi <<< 8) ||| lo)

/-- `Bus::write16` (little-endian; the `as u8` casts are the masks). -/
def write16 (b : Bus) (addr value : Nat) : Bus :=
  let b := b.write addr (value &&& 0xFF)
  b.write ((addr + 1) % 65536) ((value >>> 8) % 256)

end Bus

/-! ## Registers (src/cpu/registers.rs) -/

/-- CPU flag bits (`struct Flags`). -/
structure Flags where
  z : Bool
  n : Bool
  h : Bool
  c : Bool
  deriving Repr, DecidableEq

namespace Flags

/-- `Flags::new` (post-boot values). -/
def new : Flags := { z := true, n := false, h := true, c := true }

/-- `Flags::to_byte`. -/
def to_byte (self : Flags) : Nat :=
  let f := 0
  let f := if self.z then f ||| 0x80 else f
  let f := if self.n then f ||| 0x40 else f
  let f := if self.h then f ||| 0x20 else f
  if self.c then f ||| 0x10 else f

/-- `Flags::from_byte`. -/
def from_byte (byte : Nat) : Flags :=
  { z := byte &&& 0x80 != 0
    n := byte &&& 0x40 != 0
    h := byte &&& 0x20 != 0
    c := byte &&& 0x10 != 0 }

end Flags

/-- CPU register file (`struct Registers`). -/
structure Registers where
  a : Nat
  f : Flags
  b : Nat
  c : Nat
  d : Nat
  e : Nat
  h : Nat
  l : Nat
  sp : Nat
  pc : Nat
  deriving Repr, DecidableEq

namespace Registers

/-- `Registers::new` (post-boot DMG values). -/
def new : Registers :=
  { a := 0x01, f := Flags.new, b := 0x00, c := 0x13, d := 0x00, e := 0xD8
    h := 0x01, l := 0x4D, sp := 0xFFFE, pc := 0x0100 }

/-- `Registers::af`. -/
def af (r : Registers) : Nat := (r.a <<< 8) ||| r.f.to_byte

/-- `Registers::set_af` (low nibble of F masked to zero). -/
def set_af (r : Registers) (value : Nat) : Registers :=
  { r with a := (value >>> 8) % 256, f := Flags.from_byte ((value &&& 0xF0) % 256) }

/-- `Registers::bc`. -/
def bc (r : Registers) : Nat := (r.b <<< 8) ||| r.c

/-- `Registers::set_bc`. -/
def set_bc (r : Registers) (value : Nat) : Registers :=
  { r with b := (value >>> 8) % 256, c := value &&& 0xFF }

/-- `Registers::de`. -/
def de (r : Registers) : Nat := (r.d <<< 8) ||| r.e

/-- `Registers::set_de`. -/
def set_de (r : Registers) (value : Nat) : Registers :=
  { r with d := (value >>> 8) % 256, e := value &&& 0xFF }

/-- `Registers::hl`. -/
def hl (r : Registers) : Nat := (r.h <<< 8) ||| r.l

/-- `Registers::set_hl`. -/
def set_hl (r : Registers) (value : Nat) : Registers :=
  { r with h := (value >>> 8) % 256, l := value &&& 0xFF }

end Registers

/-! ## CPU (src/cpu/mod.rs) -/

/-- CPU state (`struct Cpu`). -/
structure Cpu where
  regs : Registers
  halted : Bool
  ime : Bool
  ime_scheduled : Bool
  deriving Repr, DecidableEq

namespace Cpu

/-- `Cpu::new`. -/
def new : Cpu :=
  { regs := Registers.new, halted := false, ime := false, ime_scheduled := false }

/-- `Cpu::handle_interrupts`: wake from HALT on any pending bit, then
dispatch the highest-priority enabled+requested interrupt when IME is
set.  Returns the updated CPU, Bus and the T-cycles consumed. -/
def handle_interrupts (cpu : Cpu) (bus : Bus) : Option (Cpu × Bus × Nat) := do
  let ie ← bus.read 0xFFFF
  let if_reg ← bus.read 0xFF0F
  let pending := ie &&& if_reg
  let cpu := if pending != 0 && cpu.halted then { cpu with halted := false } else cpu
  if !cpu.ime then
    some (cpu, bus, 0)
  else
    match get_interrupt_vector ie if_reg with
    | some (vector, bit) =>
      let cpu := { cpu with ime := false }
      let bus := bus.write 0xFF0F (if_reg &&& (bit ^^^ 0xFF))
      let sp1 := wsub16 cpu.regs.sp 1
      let bus := bus.write sp1 ((cpu.regs.pc >>> 8) % 256)
      let sp2 := wsub16 sp1 1
      let bus := bus.write sp2 (cpu.regs.pc &&& 0xFF)
      let cpu := { cpu with regs := { cpu.regs with sp := sp2, pc := vector } }
      some (cpu, bus, 20)
    | none => some (cpu, bus, 0)

/-! Register write helpers (the Rust code assigns to `self.regs.x`
in place; these build the updated record). -/

def setA (cpu : Cpu) (v : Nat) : Cpu := { cpu with regs := { cpu.regs with a := v } }
def setB (cpu : Cpu) (v : Nat) : Cpu := { cpu with regs := { cpu.regs with b := v } }
def setC (cpu : Cpu) (v : Nat) : Cpu := { cpu with regs := { cpu.regs with c := v } }
def setD (cpu : Cpu) (v : Nat) : Cpu := { cpu with regs := { cpu.regs with d := v } }
def setE (cpu : Cpu) (v : Nat) : Cpu := { cpu with regs := { cpu.regs with e := v } }
def setH (cpu : Cpu) (v : Nat) : Cpu := { cpu with regs := { cpu.regs with h := v } }
def setL (cpu : Cpu) (v : Nat) : Cpu := { cpu with regs := { cpu.regs with l := v } }
def setSP (cpu : Cpu) (v : Nat) : Cpu := { cpu with regs := { cpu.regs with sp := v } }
def setPC (cpu : Cpu) (v : Nat) : Cpu := { cpu with regs := { cpu.regs with pc := v } }
def setAF (cpu : Cpu) (v : Nat) : Cpu := { cpu with regs := cpu.regs.set_af v }
def setBC (cpu : Cpu) (v : Nat) : Cpu := { cpu with regs := cpu.regs.set_bc v }
def setDE (cpu : Cpu) (v : Nat) : Cpu := { cpu with regs := cpu.regs.set_de v }
def setHL (cpu : Cpu) (v : Nat) : Cpu := { cpu with regs := cpu.regs.set_hl v }
def setFlags (cpu : Cpu) (fl : Flags) : Cpu := { cpu with regs := { cpu.regs with f := fl } }

/-- `Cpu::fetch`: read the byte at PC and increment PC (wrapping). -/
def fetch (cpu : Cpu) (bus : Bus) : Option (Cpu × Nat) := do
  let byte ← bus.read cpu.regs.pc
  some (cpu.setPC ((cpu.regs.pc + 1) % 65536), byte)

/-- `Cpu::fetch16` (little-endian). -/
def fetch16 (cpu : Cpu) (bus : Bus) : Option (Cpu × Nat) := do
  let (cpu, lo) ← cpu.fetch bus
  let (cpu, hi) ← cpu.fetch bus
  some (cpu, (hi <<< 8) ||| lo)

/-! ALU helpers (src/cpu/instructions.rs). -/

/-- `Cpu::inc` (INC r). -/
def inc (cpu : Cpu) (value : Nat) : Cpu × Nat :=
  let result := (value + 1) % 256
  (cpu.setFlags { cpu.regs.f with
      z := result == 0, n := false,
      h := decide ((value &&& 0x0F) + 1 > 0x0F) }, result)

/-- `Cpu::dec` (DEC r). -/
def dec (cpu : Cpu) (value : Nat) : Cpu × Nat :=
  let result := wsub8 value 1
  (cpu.setFlags { cpu.regs.f with
      z := result == 0, n := true,
      h := decide ((value &&& 0x0F) = 0) }, result)

/-- `Cpu::add` (ADD A,v; `overflowing_add` on `u8`). -/
def add (cpu : Cpu) (value : Nat) : Cpu :=
  let a := cpu.regs.a
  let result := (a + value) % 256
  ((cpu.setFlags { z := result == 0, n := false,
                   h := decide ((a &&& 0x0F) + (value &&& 0x0F) > 0x0F),
                   c := decide (256 ≤ a + value) }).setA result)

/-- `Cpu::adc` (ADC A,v). -/
def adc (cpu : Cpu) (value : Nat) : Cpu :=
  let a := cpu.regs.a
  let carry := if cpu.regs.f.c then 1 else 0
  let result := (a + value + carry) % 256
  ((cpu.setFlags { z := result == 0, n := false,
                   h := decide ((a &&& 0x0F) + (value &&& 0x0F) + carry > 0x0F),
                   c := decide (a + value + carry > 0xFF) }).setA result)

/-- `Cpu::sub` (SUB A,v; `overflowing_sub` on `u8`). -/
def sub (cpu : Cpu) (value : Nat) : Cpu :=
  let a := cpu.regs.a
  let result := wsub8 a value
  ((cpu.setFlags { z := result == 0, n := true,
                   h := decide ((a &&& 0x0F) < (value &&& 0x0F)),
                   c := decide (a < value) }).setA result)

/-- `Cpu::sbc` (SBC A,v). -/
def sbc (cpu : Cpu) (value : Nat) : Cpu :=
  let a := cpu.regs.a
  let carry := if cpu.regs.f.c then 1 else 0
  let result := wsub8 (wsub8 a value) carry
  ((cpu.setFlags { z := result == 0, n := true,
                   h := decide ((a &&& 0x0F) < (value &&& 0x0F) + carry),
                   c := decide (a < value + carry) }).setA result)

/-- `Cpu::and` (AND A,v). -/
def and (cpu : Cpu) (value : Nat) : Cpu :=
  let a := cpu.regs.a &&& value
  ((cpu.setFlags { z := a == 0, n := false, h := true, c := false }).setA a)

/-- `Cpu::xor` (XOR A,v). -/
def xor (cpu : Cpu) (value : Nat) : Cpu :=
  let a := cpu.regs.a ^^^ value
  ((cpu.setFlags { z := a == 0, n := false, h := false, c := false }).setA a)

/-- `Cpu::or` (OR A,v). -/
def or (cpu : Cpu) (value : Nat) : Cpu :=
  let a := cpu.regs.a ||| value
  ((cpu.setFlags { z := a == 0, n := false, h := false, c := false }).setA a)

/-- `Cpu::cp` (CP A,v; flags as SUB, A unchanged). -/
def cp (cpu : Cpu) (value : Nat) : Cpu :=
  let a := cpu.regs.a
  let result := wsub8 a value
  cpu.setFlags { z := result == 0, n := true,
                 h := decide ((a &&& 0x0F) < (value &&& 0x0F)),
                 c := decide (a < value) }

/-- `Cpu::add_hl` (ADD HL,rr; Z untouched). -/
def add_hl (cpu : Cpu) (value : Nat) : Cpu :=
  let hl := cpu.regs.hl
  let result := (hl + value) % 65536
  ((cpu.setFlags { cpu.regs.f with
      n := false,
      h := decide ((hl &&& 0x0FFF) + (value &&& 0x0FFF) > 0x0FFF),
      c := decide (65536 ≤ hl + value) }).setHL result)

/-- `Cpu::push` (high byte first, SP decremented before each byte). -/
def push (cpu : Cpu) (bus : Bus) (value : Nat) : Cpu × Bus :=
  let sp1 := wsub16 cpu.regs.sp 1
  let bus := bus.write sp1 ((value >>> 8) % 256)
  let sp2 := wsub16 sp1 1
  let bus := bus.write sp2 (value &&& 0xFF)
  (cpu.setSP sp2, bus)

/-- `Cpu::pop` (low byte first, SP incremented after each byte). -/
def pop (cpu : Cpu) (bus : Bus) : Option (Cpu × Nat) := do
  let lo ← bus.read cpu.regs.sp
  let sp1 := (cpu.regs.sp + 1) % 65536
  let hi ← bus.read sp1
  some (cpu.setSP ((sp1 + 1) % 65536), (hi <<< 8) ||| lo)

/-- `Cpu::rlca` (the `u8` left shift truncates to 8 bits). -/
def rlca (cpu : Cpu) : Cpu :=
  let a := cpu.regs.a
  let carry := (a >>> 7) &&& 1
  ((cpu.setFlags { z := false, n := false, h := false, c := carry != 0 }).setA
    (((a <<< 1) % 256) ||| carry))

/-- `Cpu::rrca`. -/
def rrca (cpu : Cpu) : Cpu :=
  let a := cpu.regs.a
  let carry := a &&& 1
  ((cpu.setFlags { z := false, n := false, h := false, c := carry != 0 }).setA
    ((a >>> 1) ||| (carry <<< 7)))

/-- `Cpu::rla`. -/
def rla (cpu : Cpu) : Cpu :=
  let a := cpu.regs.a
  let old_carry := if cpu.regs.f.c then 1 else 0
  let new_carry := (a >>> 7) &&& 1
  ((cpu.setFlags { z := false, n := false, h := false, c := new_carry != 0 }).setA
    (((a <<< 1) % 256) ||| old_carry))

/-- `Cpu::rra`. -/
def rra (cpu : Cpu) : Cpu :=
  let a := cpu.regs.a
  let old_carry := if cpu.regs.f.c then 0x80 else 0
  let new_carry := a &&& 1
  ((cpu.setFlags { z := false, n := false, h := false, c := new_carry != 0 }).setA
    ((a >>> 1) ||| old_carry))

/-- `Cpu::daa`. -/
def daa (cpu : Cpu) : Cpu :=
  let fl := cpu.regs.f
  let a := cpu.regs.a
  if fl.n then
    let adjust := 0
    let adjust := if fl.c then adjust ||| 0x60 else adjust
    let adjust := if fl.h then adjust ||| 0x06 else adjust
    let a' := wsub8 a adjust
    ((cpu.setFlags { fl with z := a' == 0, h := false }).setA a')
  else
    let adjust := 0
    let (adjust, cflag) :=
      if fl.c || decide (a > 0x99) then (adjust ||| 0x60, true) else (adjust, fl.c)
    let adjust := if fl.h || decide ((a &&& 0x0F) > 0x09) then adjust ||| 0x06 else adjust
    let a' := (a + adjust) % 256
    ((cpu.setFlags { fl with z := a' == 0, h := false, c := cflag }).setA a')

/-- `Cpu::cpl` (`!a` on `u8` is xor with `0xFF`). -/
def cpl (cpu : Cpu) : Cpu :=
  ((cpu.setFlags { cpu.regs.f with n := true, h := true }).setA (cpu.regs.a ^^^ 0xFF))

/-- `Cpu::scf`. -/
def scf (cpu : Cpu) : Cpu :=
  cpu.setFlags { cpu.regs.f with n := false, h := false, c := true }

/-- `Cpu::ccf`. -/
def ccf (cpu : Cpu) : Cpu :=
  cpu.setFlags { cpu.regs.f with n := false, h := false, c := !cpu.regs.f.c }

/-- Sign extension of an `i8` operand to `u16` (`as i8 as u16`). -/
def sign_extend8 (n : Nat) : Nat :=
  if 0x80 ≤ n % 256 then 0xFF00 ||| (n % 256) else n % 256

end Cpu

/-! ## CB-prefixed instructions (src/cpu/cb_instructions.rs) -/

namespace Cpu

/-- `Cpu::rlc` (the `u8` left shift truncates). -/
def rlc (cpu : Cpu) (value : Nat) : Cpu × Nat :=
  let carry := (value >>> 7) &&& 1
  let result := ((value <<< 1) % 256) ||| carry
  (cpu.setFlags { z := result == 0, n := false, h := false, c := carry != 0 }, result)

/-- `Cpu::rrc`. -/
def rrc (cpu : Cpu) (value : Nat) : Cpu × Nat :=
  let carry := value &&& 1
  let result := (value >>> 1) ||| (carry <<< 7)
  (cpu.setFlags { z := result == 0, n := false, h := false, c := carry != 0 }, result)

/-- `Cpu::rl`. -/
def rl (cpu : Cpu) (value : Nat) : Cpu × Nat :=
  let old_carry := if cpu.regs.f.c then 1 else 0
  let new_carry := (value >>> 7) &&& 1
  let result := ((value <<< 1) % 256) ||| old_carry
  (cpu.setFlags { z := result == 0, n := false, h := false, c := new_carry != 0 }, result)

/-- `Cpu::rr`. -/
def rr (cpu : Cpu) (value : Nat) : Cpu × Nat :=
  let old_carry := if cpu.regs.f.c then 0x80 else 0
  let new_carry := value &&& 1
  let result := (value >>> 1) ||| old_carry
  (cpu.setFlags { z := result == 0, n := false, h := false, c := new_carry != 0 }, result)

/-- `Cpu::sla`. -/
def sla (cpu : Cpu) (value : Nat) : Cpu × Nat :=
  let carry := (value >>> 7) &&& 1
  let result := (value <<< 1) % 256
  (cpu.setFlags { z := result == 0, n := false, h := false, c := carry != 0 }, result)

/-- `Cpu::sra` (bit 7 preserved). -/
def sra (cpu : Cpu) (value : Nat) : Cpu × Nat :=
  let carry := value &&& 1
  let result := (value >>> 1) ||| (value &&& 0x80)
  (cpu.setFlags { z := result == 0, n := false, h := false, c := carry != 0 }, result)

/-- `Cpu::swap`. -/
def swap (cpu : Cpu) (value : Nat) : Cpu × Nat :=
  let result := ((value &&& 0x0F) <<< 4) ||| ((value &&& 0xF0) >>> 4)
  (cpu.setFlags { z := result == 0, n := false, h := false, c := false }, result)

/-- `Cpu::srl`. -/
def srl (cpu : Cpu) (value : Nat) : Cpu × Nat :=
  let carry := value &&& 1
  let result := value >>> 1
  (cpu.setFlags { z := result == 0, n := false, h := false, c := carry != 0 }, result)

/-- `Cpu::bit` (BIT b,r; C preserved). -/
def bit (cpu : Cpu) (value b : Nat) : Cpu :=
  let result := value &&& (1 <<< b)
  cpu.setFlags { cpu.regs.f with z := result == 0, n := false, h := true }

/-- `Cpu::res` (`!(1 << bit)` on `u8` is xor with `0xFF`). -/
def res (_self : Cpu) (value b : Nat) : Nat := value &&& ((1 <<< b) ^^^ 0xFF)

/-- `Cpu::set`. -/
def set (_self : Cpu) (value b : Nat) : Nat := value ||| (1 <<< b)

/-- `Cpu::get_reg_value`.  The index is `opcode & 0x07 ≤ 7`, so the
catch-all arm below is exactly the Rust `7 => self.regs.a` arm (the
Rust `unreachable!` default cannot fire). -/
def get_reg_value (cpu : Cpu) (bus : Bus) (idx : Nat) : Option Nat :=
  match idx with
  | 0 => some cpu.regs.b
  | 1 => some cpu.regs.c
  | 2 => some cpu.regs.d
  | 3 => some cpu.regs.e
  | 4 => some cpu.regs.h
  | 5 => some cpu.regs.l
  | 6 => bus.read cpu.regs.hl
  | _ => some cpu.regs.a

/-- `Cpu::set_reg_value` (same remark about the catch-all arm). -/
def set_reg_value (cpu : Cpu) (bus : Bus) (idx value : Nat) : Cpu × Bus :=
  match idx with
  | 0 => (cpu.setB value, bus)
  | 1 => (cpu.setC value, bus)
  | 2 => (cpu.setD value, bus)
  | 3 => (cpu.setE value, bus)
  | 4 => (cpu.setH value, bus)
  | 5 => (cpu.setL value, bus)
  | 6 => (cpu, bus.write cpu.regs.hl value)
  | _ => (cpu.setA value, bus)

/-- `Cpu::execute_cb`: decode and run one CB-prefixed opcode. -/
def execute_cb (cpu : Cpu) (bus : Bus) (opcode : Nat) : Option (Cpu × Bus × Nat) := do
  let reg_idx := opcode &&& 0x07
  let value ← cpu.get_reg_value bus reg_idx
  let (cpu, result, cycles) :=
    if opcode ≤ 0x07 then
      let (cpu, r) := cpu.rlc value
      (cpu, some r, if reg_idx == 6 then 16 else 8)
    else if opcode ≤ 0x0F then
      let (cpu, r) := cpu.rrc value
      (cpu, some r, if reg_idx == 6 then 16 else 8)
    else if opcode ≤ 0x17 then
      let (cpu, r) := cpu.rl value
      (cpu, some r, if reg_idx == 6 then 16 else 8)
    else if opcode ≤ 0x1F then
      let (cpu, r) := cpu.rr value
      (cpu, some r, if reg_idx == 6 then 16 else 8)
    else if opcode ≤ 0x27 then
      let (cpu, r) := cpu.sla value
      (cpu, some r, if reg_idx == 6 then 16 else 8)
    else if opcode ≤ 0x2F then
      let (cpu, r) := cpu.sra value
      (cpu, some r, if reg_idx == 6 then 16 else 8)
    else if opcode ≤ 0x37 then
      let (cpu, r) := cpu.swap value
      (cpu, some r, if reg_idx == 6 then 16 else 8)
    else if opcode ≤ 0x3F then
      let (cpu, r) := cpu.srl value
      (cpu, some r, if reg_idx == 6 then 16 else 8)
    else if opcode ≤ 0x7F then
      let b := (opcode >>> 3) &&& 0x07
      (cpu.bit value b, (none : Option Nat), if reg_idx == 6 then 12 else 8)
    else if opcode ≤ 0xBF then
      let b := (opcode >>> 3) &&& 0x07
      (cpu, some (cpu.res value b), if reg_idx == 6 then 16 else 8)
    else
      let b := (opcode >>> 3) &&& 0x07
      (cpu, some (cpu.set value b), if reg_idx == 6 then 16 else 8)
  match result with
  | some r =>
    let (cpu, bus) := cpu.set_reg_value bus reg_idx r
    some (cpu, bus, cycles)
  | none => some (cpu, bus, cycles)

end Cpu

namespace Cpu

set_option maxHeartbeats 3200000 in
/-- `Cpu::execute`: decode and run one base opcode.  `none` models the
Rust `panic!` on the undefined opcodes `0xD3, 0xDB, 0xDD, 0xE3, 0xE4,
0xEB, 0xEC, 0xED, 0xF4, 0xFC, 0xFD` (and the unreachable catch-all). -/
def execute (cpu : Cpu) (bus : Bus) (opcode : Nat) : Option (Cpu × Bus × Nat) :=
  match opcode with
  | 0x00 => some (cpu, bus, 4)
  | 0x10 => do
    let (cpu, _) ← cpu.fetch bus
    some (cpu, bus, 4)
  | 0x06 => do
    let (cpu, n) ← cpu.fetch bus
    some (cpu.setB n, bus, 8)
  | 0x0E => do
    let (cpu, n) ← cpu.fetch bus
    some (cpu.setC n, bus, 8)
  | 0x16 => do
    let (cpu, n) ← cpu.fetch bus
    some (cpu.setD n, bus, 8)
  | 0x1E => do
    let (cpu, n) ← cpu.fetch bus
    some (cpu.setE n, bus, 8)
  | 0x26 => do
    let (cpu, n) ← cpu.fetch bus
    some (cpu.setH n, bus, 8)
  | 0x2E => do
    let (cpu, n) ← cpu.fetch bus
    some (cpu.setL n, bus, 8)
  | 0x3E => do
    let (cpu, n) ← cpu.fetch bus
    some (cpu.setA n, bus, 8)
  | 0x40 => some (cpu, bus, 4)
  | 0x41 => some (cpu.setB cpu.regs.c, bus, 4)
  | 0x42 => some (cpu.setB cpu.regs.d, bus, 4)
  | 0x43 => some (cpu.setB cpu.regs.e, bus, 4)
  | 0x44 => some (cpu.setB cpu.regs.h, bus, 4)
  | 0x45 => some (cpu.setB cpu.regs.l, bus, 4)
  | 0x46 => do
    let v ← bus.read cpu.regs.hl
    some (cpu.setB v, bus, 8)
  | 0x47 => some (cpu.setB cpu.regs.a, bus, 4)
  | 0x48 => some (cpu.setC cpu.regs.b, bus, 4)
  | 0x49 => some (cpu, bus, 4)
  | 0x4A => some (cpu.setC cpu.regs.d, bus, 4)
  | 0x4B => some (cpu.setC cpu.regs.e, bus, 4)
  | 0x4C => some (cpu.setC cpu.regs.h, bus, 4)
  | 0x4D => some (cpu.setC cpu.regs.l, bus, 4)
  | 0x4E => do
    let v ← bus.read cpu.regs.hl
    some (cpu.setC v, bus, 8)
  | 0x4F => some (cpu.setC cpu.regs.a, bus, 4)
  | 0x50 => some (cpu.setD cpu.regs.b, bus, 4)
  | 0x51 => some (cpu.setD cpu.regs.c, bus, 4)
  | 0x52 => some (cpu, bus, 4)
  | 0x53 => some (cpu.setD cpu.regs.e, bus, 4)
  | 0x54 => some (cpu.setD cpu.regs.h, bus, 4)
  | 0x55 => some (cpu.setD cpu.regs.l, bus, 4)
  | 0x56 => do
    let v ← bus.read cpu.regs.hl
    some (cpu.setD v, bus, 8)
  | 0x57 => some (cpu.setD cpu.regs.a, bus, 4)
  | 0x58 => some (cpu.setE cpu.regs.b, bus, 4)
  | 0x59 => some (cpu.setE cpu.regs.c, bus, 4)
  | 0x5A => some (cpu.setE cpu.regs.d, bus, 4)
  | 0x5B => some (cpu, bus, 4)
  | 0x5C => some (cpu.setE cpu.regs.h, bus, 4)
  | 0x5D => some (cpu.setE cpu.regs.l, bus, 4)
  | 0x5E => do
    let v ← bus.read cpu.regs.hl
    some (cpu.setE v, bus, 8)
  | 0x5F => some (cpu.setE cpu.regs.a, bus, 4)
  | 0x60 => some (cpu.setH cpu.regs.b, bus, 4)
  | 0x61 => some (cpu.setH cpu.regs.c, bus, 4)
  | 0x62 => some (cpu.setH cpu.regs.d, bus, 4)
  | 0x63 => some (cpu.setH cpu.regs.e, bus, 4)
  | 0x64 => some (cpu, bus, 4)
  | 0x65 => some (cpu.setH cpu.regs.l, bus, 4)
  | 0x66 => do
    let v ← bus.read cpu.regs.hl
    some (cpu.setH v, bus, 8)
  | 0x67 => some (cpu.setH cpu.regs.a, bus, 4)
  | 0x68 => some (cpu.setL cpu.regs.b, bus, 4)
  | 0x69 => some (cpu.setL cpu.regs.c, bus, 4)
  | 0x6A => some (cpu.setL cpu.regs.d, bus, 4)
  | 0x6B => some (cpu.setL cpu.regs.e, bus, 4)
  | 0x6C => some (cpu.setL cpu.regs.h, bus, 4)
  | 0x6D => some (cpu, bus, 4)
  | 0x6E => do
    let v ← bus.read cpu.regs.hl
    some (cpu.setL v, bus, 8)
  | 0x6F => some (cpu.setL cpu.regs.a, bus, 4)
  | 0x70 => some (cpu, bus.write cpu.regs.hl cpu.regs.b, 8)
  | 0x71 => some (cpu, bus.write cpu.regs.hl cpu.regs.c, 8)
  | 0x72 => some (cpu, bus.write cpu.regs.hl cpu.regs.d, 8)
  | 0x73 => some (cpu, bus.write cpu.regs.hl cpu.regs.e, 8)
  | 0x74 => some (cpu, bus.write cpu.regs.hl cpu.regs.h, 8)
  | 0x75 => some (cpu, bus.write cpu.regs.hl cpu.regs.l, 8)
  | 0x77 => some (cpu, bus.write cpu.regs.hl cpu.regs.a, 8)
  | 0x78 => some (cpu.setA cpu.regs.b, bus, 4)
  | 0x79 => some (cpu.setA cpu.regs.c, bus, 4)
  | 0x7A => some (cpu.setA cpu.regs.d, bus, 4)
  | 0x7B => some (cpu.setA cpu.regs.e, bus, 4)
  | 0x7C => some (cpu.setA cpu.regs.h, bus, 4)
  | 0x7D => some (cpu.setA cpu.regs.l, bus, 4)
  | 0x7E => do
    let v ← bus.read cpu.regs.hl
    some (cpu.setA v, bus, 8)
  | 0x7F => some (cpu, bus, 4)
  | 0x01 => do
    let (cpu, v) ← cpu.fetch16 bus
    some (cpu.setBC v, bus, 12)
  | 0x11 => do
    let (cpu, v) ← cpu.fetch16 bus
    some (cpu.setDE v, bus, 12)
  | 0x21 => do
    let (cpu, v) ← cpu.fetch16 bus
    some (cpu.setHL v, bus, 12)
  | 0x31 => do
    let (cpu, v) ← cpu.fetch16 bus
    some (cpu.setSP v, bus, 12)
  | 0x02 => some (cpu, bus.write cpu.regs.bc cpu.regs.a, 8)
  | 0x12 => some (cpu, bus.write cpu.regs.de cpu.regs.a, 8)
  | 0x0A => do
    let v ← bus.read cpu.regs.bc
    some (cpu.setA v, bus, 8)
  | 0x1A => do
    let v ← bus.read cpu.regs.de
    some (cpu.setA v, bus, 8)
  | 0x22 =>
    let bus := bus.write cpu.regs.hl cpu.regs.a
    some (cpu.setHL ((cpu.regs.hl + 1) % 65536), bus, 8)
  | 0x32 =>
    let bus := bus.write cpu.regs.hl cpu.regs.a
    some (cpu.setHL (wsub16 cpu.regs.hl 1), bus, 8)
  | 0x2A => do
    let v ← bus.read cpu.regs.hl
    some ((cpu.setA v).setHL ((cpu.regs.hl + 1) % 65536), bus, 8)
  | 0x3A => do
    let v ← bus.read cpu.regs.hl
    some ((cpu.setA v).setHL (wsub16 cpu.regs.hl 1), bus, 8)
  | 0xEA => do
    let (cpu, addr) ← cpu.fetch16 bus
    some (cpu, bus.write addr cpu.regs.a, 16)
  | 0xFA => do
    let (cpu, addr) ← cpu.fetch16 bus
    let v ← bus.read addr
    some (cpu.setA v, bus, 16)
  | 0xE0 => do
    let (cpu, off) ← cpu.fetch bus
    some (cpu, bus.write (0xFF00 + off) cpu.regs.a, 12)
  | 0xF0 => do
    let (cpu, off) ← cpu.fetch bus
    let v ← bus.read (0xFF00 + off)
    some (cpu.setA v, bus, 12)
  | 0xE2 => some (cpu, bus.write (0xFF00 + cpu.regs.c) cpu.regs.a, 8)
  | 0xF2 => do
    let v ← bus.read (0xFF00 + cpu.regs.c)
    some (cpu.setA v, bus, 8)
  | 0x36 => do
    let (cpu, n) ← cpu.fetch bus
    some (cpu, bus.write cpu.regs.hl n, 12)
  | 0xF9 => some (cpu.setSP cpu.regs.hl, bus, 8)
  | 0x08 => do
    let (cpu, addr) ← cpu.fetch16 bus
    some (cpu, bus.write16 addr cpu.regs.sp, 20)
  | 0x04 =>
    let (cpu, v) := cpu.inc cpu.regs.b
    some (cpu.setB v, bus, 4)
  | 0x0C =>
    let (cpu, v) := cpu.inc cpu.regs.c
    some (cpu.setC v, bus, 4)
  | 0x14 =>
    let (cpu, v) := cpu.inc cpu.regs.d
    some (cpu.setD v, bus, 4)
  | 0x1C =>
    let (cpu, v) := cpu.inc cpu.regs.e
    some (cpu.setE v, bus, 4)
  | 0x24 =>
    let (cpu, v) := cpu.inc cpu.regs.h
    some (cpu.setH v, bus, 4)
  | 0x2C =>
    let (cpu, v) := cpu.inc cpu.regs.l
    some (cpu.setL v, bus, 4)
  | 0x34 => do
    let v0 ← bus.read cpu.regs.hl
    let (cpu, v) := cpu.inc v0
    some (cpu, bus.write cpu.regs.hl v, 12)
  | 0x3C =>
    let (cpu, v) := cpu.inc cpu.regs.a
    some (cpu.setA v, bus, 4)
  | 0x05 =>
    let (cpu, v) := cpu.dec cpu.regs.b
    some (cpu.setB v, bus, 4)
  | 0x0D =>
    let (cpu, v) := cpu.dec cpu.regs.c
    some (cpu.setC v, bus, 4)
  | 0x15 =>
    let (cpu, v) := cpu.dec cpu.regs.d
    some (cpu.setD v, bus, 4)
  | 0x1D =>
    let (cpu, v) := cpu.dec cpu.regs.e
    some (cpu.setE v, bus, 4)
  | 0x25 =>
    let (cpu, v) := cpu.dec cpu.regs.h
    some (cpu.setH v, bus, 4)
  | 0x2D =>
    let (cpu, v) := cpu.dec cpu.regs.l
    some (cpu.setL v, bus, 4)
  | 0x35 => do
    let v0 ← bus.read cpu.regs.hl
    let (cpu, v) := cpu.dec v0
    some (cpu, bus.write cpu.regs.hl v, 12)
  | 0x3D =>
    let (cpu, v) := cpu.dec cpu.regs.a
    some (cpu.setA v, bus, 4)
  | 0x03 => some (cpu.setBC ((cpu.regs.bc + 1) % 65536), bus, 8)
  | 0x13 => some (cpu.setDE ((cpu.regs.de + 1) % 65536), bus, 8)
  | 0x23 => some (cpu.setHL ((cpu.regs.hl + 1) % 65536), bus, 8)
  | 0x33 => some (cpu.setSP ((cpu.regs.sp + 1) % 65536), bus, 8)
  | 0x0B => some (cpu.setBC (wsub16 cpu.regs.bc 1), bus, 8)
  | 0x1B => some (cpu.setDE (wsub16 cpu.regs.de 1), bus, 8)
  | 0x2B => some (cpu.setHL (wsub16 cpu.regs.hl 1), bus, 8)
  | 0x3B => some (cpu.setSP (wsub16 cpu.regs.sp 1), bus, 8)
  | 0x80 => some (cpu.add cpu.regs.b, bus, 4)
  | 0x81 => some (cpu.add cpu.regs.c, bus, 4)
  | 0x82 => some (cpu.add cpu.regs.d, bus, 4)
  | 0x83 => some (cpu.add cpu.regs.e, bus, 4)
  | 0x84 => some (cpu.add cpu.regs.h, bus, 4)
  | 0x85 => some (cpu.add cpu.regs.l, bus, 4)
  | 0x86 => do
    let v ← bus.read cpu.regs.hl
    some (cpu.add v, bus, 8)
  | 0x87 => some (cpu.add cpu.regs.a, bus, 4)
  | 0xC6 => do
    let (cpu, n) ← cpu.fetch bus
    some (cpu.add n, bus, 8)
  | 0x88 => some (cpu.adc cpu.regs.b, bus, 4)
  | 0x89 => some (cpu.adc cpu.regs.c, bus, 4)
  | 0x8A => some (cpu.adc cpu.regs.d, bus, 4)
  | 0x8B => some (cpu.adc cpu.regs.e, bus, 4)
  | 0x8C => some (cpu.adc cpu.regs.h, bus, 4)
  | 0x8D => some (cpu.adc cpu.regs.l, bus, 4)
  | 0x8E => do
    let v ← bus.read cpu.regs.hl
    some (cpu.adc v, bus, 8)
  | 0x8F => some (cpu.adc cpu.regs.a, bus, 4)
  | 0xCE => do
    let (cpu, n) ← cpu.fetch bus
    some (cpu.adc n, bus, 8)
  | 0x90 => some (cpu.sub cpu.regs.b, bus, 4)
  | 0x91 => some (cpu.sub cpu.regs.c, bus, 4)
  | 0x92 => some (cpu.sub cpu.regs.d, bus, 4)
  | 0x93 => some (cpu.sub cpu.regs.e, bus, 4)
  | 0x94 => some (cpu.sub cpu.regs.h, bus, 4)
  | 0x95 => some (cpu.sub cpu.regs.l, bus, 4)
  | 0x96 => do
    let v ← bus.read cpu.regs.hl
    some (cpu.sub v, bus, 8)
  | 0x97 => some (cpu.sub cpu.regs.a, bus, 4)
  | 0xD6 => do
    let (cpu, n) ← cpu.fetch bus
    some (cpu.sub n, bus, 8)
  | 0x98 => some (cpu.sbc cpu.regs.b, bus, 4)
  | 0x99 => some (cpu.sbc cpu.regs.c, bus, 4)
  | 0x9A => some (cpu.sbc cpu.regs.d, bus, 4)
  | 0x9B => some (cpu.sbc cpu.regs.e, bus, 4)
  | 0x9C => some (cpu.sbc cpu.regs.h, bus, 4)
  | 0x9D => some (cpu.sbc cpu.regs.l, bus, 4)
  | 0x9E => do
    let v ← bus.read cpu.regs.hl
    some (cpu.sbc v, bus, 8)
  | 0x9F => some (cpu.sbc cpu.regs.a, bus, 4)
  | 0xDE => do
    let (cpu, n) ← cpu.fetch bus
    some (cpu.sbc n, bus, 8)
  | 0xA0 => some (cpu.and cpu.regs.b, bus, 4)
  | 0xA1 => some (cpu.and cpu.regs.c, bus, 4)
  | 0xA2 => some (cpu.and cpu.regs.d, bus, 4)
  | 0xA3 => some (cpu.and cpu.regs.e, bus, 4)
  | 0xA4 => some (cpu.and cpu.regs.h, bus, 4)
  | 0xA5 => some (cpu.and cpu.regs.l, bus, 4)
  | 0xA6 => do
    let v ← bus.read cpu.regs.hl
    some (cpu.and v, bus, 8)
  | 0xA7 => some (cpu.and cpu.regs.a, bus, 4)
  | 0xE6 => do
    let (cpu, n) ← cpu.fetch bus
    some (cpu.and n, bus, 8)
  | 0xA8 => some (cpu.xor cpu.regs.b, bus, 4)
  | 0xA9 => some (cpu.xor cpu.regs.c, bus, 4)
  | 0xAA => some (cpu.xor cpu.regs.d, bus, 4)
  | 0xAB => some (cpu.xor cpu.regs.e, bus, 4)
  | 0xAC => some (cpu.xor cpu.regs.h, bus, 4)
  | 0xAD => some (cpu.xor cpu.regs.l, bus, 4)
  | 0xAE => do
    let v ← bus.read cpu.regs.hl
    some (cpu.xor v, bus, 8)
  | 0xAF => some (cpu.xor cpu.regs.a, bus, 4)
  | 0xEE => do
    let (cpu, n) ← cpu.fetch bus
    some (cpu.xor n, bus, 8)
  | 0xB0 => some (cpu.or cpu.regs.b, bus, 4)
  | 0xB1 => some (cpu.or cpu.regs.c, bus, 4)
  | 0xB2 => some (cpu.or cpu.regs.d, bus, 4)
  | 0xB3 => some (cpu.or cpu.regs.e, bus, 4)
  | 0xB4 => some (cpu.or cpu.regs.h, bus, 4)
  | 0xB5 => some (cpu.or cpu.regs.l, bus, 4)
  | 0xB6 => do
    let v ← bus.read cpu.regs.hl
    some (cpu.or v, bus, 8)
  | 0xB7 => some (cpu.or cpu.regs.a, bus, 4)
  | 0xF6 => do
    let (cpu, n) ← cpu.fetch bus
    some (cpu.or n, bus, 8)
  | 0xB8 => some (cpu.cp cpu.regs.b, bus, 4)
  | 0xB9 => some (cpu.cp cpu.regs.c, bus, 4)
  | 0xBA => some (cpu.cp cpu.regs.d, bus, 4)
  | 0xBB => some (cpu.cp cpu.regs.e, bus, 4)
  | 0xBC => some (cpu.cp cpu.regs.h, bus, 4)
  | 0xBD => some (cpu.cp cpu.regs.l, bus, 4)
  | 0xBE => do
    let v ← bus.read cpu.regs.hl
    some (cpu.cp v, bus, 8)
  | 0xBF => some (cpu.cp cpu.regs.a, bus, 4)
  | 0xFE => do
    let (cpu, n) ← cpu.fetch bus
    some (cpu.cp n, bus, 8)
  | 0x09 => some (cpu.add_hl cpu.regs.bc, bus, 8)
  | 0x19 => some (cpu.add_hl cpu.regs.de, bus, 8)
  | 0x29 => some (cpu.add_hl cpu.regs.hl, bus, 8)
  | 0x39 => some (cpu.add_hl cpu.regs.sp, bus, 8)
  | 0xC3 => do
    let (cpu, addr) ← cpu.fetch16 bus
    some (cpu.setPC addr, bus, 16)
  | 0xE9 => some (cpu.setPC cpu.regs.hl, bus, 4)
  | 0xC2 => do
    let (cpu, addr) ← cpu.fetch16 bus
    if !cpu.regs.f.z then some (cpu.setPC addr, bus, 16) else some (cpu, bus, 12)
  | 0xCA => do
    let (cpu, addr) ← cpu.fetch16 bus
    if cpu.regs.f.z then some (cpu.setPC addr, bus, 16) else some (cpu, bus, 12)
  | 0xD2 => do
    let (cpu, addr) ← cpu.fetch16 bus
    if !cpu.regs.f.c then some (cpu.setPC addr, bus, 16) else some (cpu, bus, 12)
  | 0xDA => do
    let (cpu, addr) ← cpu.fetch16 bus
    if cpu.regs.f.c then some (cpu.setPC addr, bus, 16) else some (cpu, bus, 12)
  | 0x18 => do
    let (cpu, off) ← cpu.fetch bus
    some (cpu.setPC ((cpu.regs.pc + sign_extend8 off) % 65536), bus, 12)
  | 0x20 => do
    let (cpu, off) ← cpu.fetch bus
    if !cpu.regs.f.z then
      some (cpu.setPC ((cpu.regs.pc + sign_extend8 off) % 65536), bus, 12)
    else some (cpu, bus, 8)
  | 0x28 => do
    let (cpu, off) ← cpu.fetch bus
    if cpu.regs.f.z then
      some (cpu.setPC ((cpu.regs.pc + sign_extend8 off) % 65536), bus, 12)
    else some (cpu, bus, 8)
  | 0x30 => do
    let (cpu, off) ← cpu.fetch bus
    if !cpu.regs.f.c then
      some (cpu.setPC ((cpu.regs.pc + sign_extend8 off) % 65536), bus, 12)
    else some (cpu, bus, 8)
  | 0x38 => do
    let (cpu, off) ← cpu.fetch bus
    if cpu.regs.f.c then
      some (cpu.setPC ((cpu.regs.pc + sign_extend8 off) % 65536), bus, 12)
    else some (cpu, bus, 8)
  | 0xCD => do
    let (cpu, addr) ← cpu.fetch16 bus
    let (cpu, bus) := cpu.push bus cpu.regs.pc
    some (cpu.setPC addr, bus, 24)
  | 0xC4 => do
    let (cpu, addr) ← cpu.fetch16 bus
    if !cpu.regs.f.z then
      let (cpu, bus) := cpu.push bus cpu.regs.pc
      some (cpu.setPC addr, bus, 24)
    else some (cpu, bus, 12)
  | 0xCC => do
    let (cpu, addr) ← cpu.fetch16 bus
    if cpu.regs.f.z then
      let (cpu, bus) := cpu.push bus cpu.regs.pc
      some (cpu.setPC addr, bus, 24)
    else some (cpu, bus, 12)
  | 0xD4 => do
    let (cpu, addr) ← cpu.fetch16 bus
    if !cpu.regs.f.c then
      let (cpu, bus) := cpu.push bus cpu.regs.pc
      some (cpu.setPC addr, bus, 24)
    else some (cpu, bus, 12)
  | 0xDC => do
    let (cpu, addr) ← cpu.fetch16 bus
    if cpu.regs.f.c then
      let (cpu, bus) := cpu.push bus cpu.regs.pc
      some (cpu.setPC addr, bus, 24)
    else some (cpu, bus, 12)
  | 0xC9 => do
    let (cpu, v) ← cpu.pop bus
    some (cpu.setPC v, bus, 16)
  | 0xD9 => do
    let (cpu, v) ← cpu.pop bus
    some ({ cpu.setPC v with ime := true }, bus, 16)
  | 0xC0 =>
    if !cpu.regs.f.z then do
      let (cpu, v) ← cpu.pop bus
      some (cpu.setPC v, bus, 20)
    else some (cpu, bus, 8)
  | 0xC8 =>
    if cpu.regs.f.z then do
      let (cpu, v) ← cpu.pop bus
      some (cpu.setPC v, bus, 20)
    else some (cpu, bus, 8)
  | 0xD0 =>
    if !cpu.regs.f.c then do
      let (cpu, v) ← cpu.pop bus
      some (cpu.setPC v, bus, 20)
    else some (cpu, bus, 8)
  | 0xD8 =>
    if cpu.regs.f.c then do
      let (cpu, v) ← cpu.pop bus
      some (cpu.setPC v, bus, 20)
    else some (cpu, bus, 8)
  | 0xC7 =>
    let (cpu, bus) := cpu.push bus cpu.regs.pc
    some (cpu.setPC 0x00, bus, 16)
  | 0xCF =>
    let (cpu, bus) := cpu.push bus cpu.regs.pc
    some (cpu.setPC 0x08, bus, 16)
  | 0xD7 =>
    let (cpu, bus) := cpu.push bus cpu.regs.pc
    some (cpu.setPC 0x10, bus, 16)
  | 0xDF =>
    let (cpu, bus) := cpu.push bus cpu.regs.pc
    some (cpu.setPC 0x18, bus, 16)
  | 0xE7 =>
    let (cpu, bus) := cpu.push bus cpu.regs.pc
    some (cpu.setPC 0x20, bus, 16)
  | 0xEF =>
    let (cpu, bus) := cpu.push bus cpu.regs.pc
    some (cpu.setPC 0x28, bus, 16)
  | 0xF7 =>
    let (cpu, bus) := cpu.push bus cpu.regs.pc
    some (cpu.setPC 0x30, bus, 16)
  | 0xFF =>
    let (cpu, bus) := cpu.push bus cpu.regs.pc
    some (cpu.setPC 0x38, bus, 16)
  | 0xC5 =>
    let (cpu, bus) := cpu.push bus cpu.regs.bc
    some (cpu, bus, 16)
  | 0xD5 =>
    let (cpu, bus) := cpu.push bus cpu.regs.de
    some (cpu, bus, 16)
  | 0xE5 =>
    let (cpu, bus) := cpu.push bus cpu.regs.hl
    some (cpu, bus, 16)
  | 0xF5 =>
    let (cpu, bus) := cpu.push bus cpu.regs.af
    some (cpu, bus, 16)
  | 0xC1 => do
    let (cpu, v) ← cpu.pop bus
    some (cpu.setBC v, bus, 12)
  | 0xD1 => do
    let (cpu, v) ← cpu.pop bus
    some (cpu.setDE v, bus, 12)
  | 0xE1 => do
    let (cpu, v) ← cpu.pop bus
    some (cpu.setHL v, bus, 12)
  | 0xF1 => do
    let (cpu, v) ← cpu.pop bus
    some (cpu.setAF v, bus, 12)
  | 0xF3 => some ({ cpu with ime := false, ime_scheduled := false }, bus, 4)
  | 0xFB => some ({ cpu with ime_scheduled := true }, bus, 4)
  | 0x76 => some ({ cpu with halted := true }, bus, 4)
  | 0x07 => some (cpu.rlca, bus, 4)
  | 0x0F => some (cpu.rrca, bus, 4)
  | 0x17 => some (cpu.rla, bus, 4)
  | 0x1F => some (cpu.rra, bus, 4)
  | 0x27 => some (cpu.daa, bus, 4)
  | 0x2F => some (cpu.cpl, bus, 4)
  | 0x37 => some (cpu.scf, bus, 4)
  | 0x3F => some (cpu.ccf, bus, 4)
  | 0xE8 => do
    let (cpu, n0) ← cpu.fetch bus
    let n := sign_extend8 n0
    let sp := cpu.regs.sp
    let result := (sp + n) % 65536
    let cpu := cpu.setFlags { z := false, n := false,
                              h := decide ((sp &&& 0x0F) + (n &&& 0x0F) > 0x0F),
                              c := decide ((sp &&& 0xFF) + (n &&& 0xFF) > 0xFF) }
    some (cpu.setSP result, bus, 16)
  | 0xF8 => do
    let (cpu, n0) ← cpu.fetch bus
    let n := sign_extend8 n0
    let sp := cpu.regs.sp
    let result := (sp + n) % 65536
    let cpu := cpu.setFlags { z := false, n := false,
                              h := decide ((sp &&& 0x0F) + (n &&& 0x0F) > 0x0F),
                              c := decide ((sp &&& 0xFF) + (n &&& 0xFF) > 0xFF) }
    some (cpu.setHL result, bus, 12)
  | 0xCB => do
    let (cpu, cb_opcode) ← cpu.fetch bus
    cpu.execute_cb bus cb_opcode
  | _ => none

/-- `Cpu::step`: interrupt dispatch, HALT idle, then fetch-decode-execute
with the deferred-EI latch applied after the instruction. -/
def step (cpu : Cpu) (bus : Bus) : Option (Cpu × Bus × Nat) := do
  let (cpu, bus, interrupt_cycles) ← cpu.handle_interrupts bus
  if interrupt_cycles > 0 then
    some (cpu, bus, interrupt_cycles)
  else if cpu.halted then
    some (cpu, bus, 4)
  else
    let ei_pending := cpu.ime_scheduled
    let (cpu, opcode) ← cpu.fetch bus
    let (cpu, bus, cycles) ← cpu.execute bus opcode
    let cpu := if ei_pending then { cpu with ime := true, ime_scheduled := false } else cpu
    some (cpu, bus, cycles)

end Cpu

/-! ## Cartridge (src/cartridge.rs) -/

/-- Cartridge types (`enum CartridgeType`). -/
inductive CartridgeType where
  | RomOnly
  | Mbc1
  | Mbc1Ram
  | Mbc1RamBattery
  | Mbc2
  | Mbc2Battery
  | Mbc3
  | Mbc3Ram
  | Mbc3RamBattery
  | Mbc3TimerBattery
  | Mbc3TimerRamBattery
  | Mbc5
  | Mbc5Ram
  | Mbc5RamBattery
  | Unknown (value : Nat)
  deriving Repr, DecidableEq

/-- `impl From<u8> for CartridgeType`. -/
def CartridgeType.fromByte (value : Nat) : CartridgeType :=
  match value with
  | 0x00 => CartridgeType.RomOnly
  | 0x01 => CartridgeType.Mbc1
  | 0x02 => CartridgeType.Mbc1Ram
  | 0x03 => CartridgeType.Mbc1RamBattery
  | 0x05 => CartridgeType.Mbc2
  | 0x06 => CartridgeType.Mbc2Battery
  | 0x0F => CartridgeType.Mbc3TimerBattery
  | 0x10 => CartridgeType.Mbc3TimerRamBattery
  | 0x11 => CartridgeType.Mbc3
  | 0x12 => CartridgeType.Mbc3Ram
  | 0x13 => CartridgeType.Mbc3RamBattery
  | 0x19 => CartridgeType.Mbc5
  | 0x1A => CartridgeType.Mbc5Ram
  | 0x1B => CartridgeType.Mbc5RamBattery
  | _ => CartridgeType.Unknown value

/-- `struct CartridgeInfo` (the title is kept as its byte list). -/
structure CartridgeInfo where
  title : List Nat
  cartridge_type : CartridgeType
  rom_size : Nat
  ram_size : Nat
  header_checksum : Nat
  checksum_valid : Bool
  deriving Repr, DecidableEq

/-- `struct Cartridge`. -/
structure Cartridge where
  rom : List Nat
  info : CartridgeInfo
  deriving Repr, DecidableEq

/-- The header checksum loop of `Cartridge::parse_header`:
`x = 0; for i in 0x0134..=0x014C { x = x - rom[i] - 1 }` (wrapping u8). -/
def header_checksum_fold (rom : List Nat) : Nat :=
  (List.range 0x19).foldl (fun x i => wsub8 (wsub8 x (rom.getD (0x0134 + i) 0)) 1) 0

namespace Cartridge

/-- `Cartridge::parse_header`.  Indexing uses `getD 0`: the only caller
guards `rom.length ≥ 0x150`, so every index is in bounds and the
default is never consulted. -/
def parse_header (rom : List Nat) : Except String CartridgeInfo :=
  let title_bytes := (rom.drop 0x0134).take 0x10
  let title := title_bytes.takeWhile (fun b => b != 0)
  let cartridge_type := CartridgeType.fromByte (rom.getD 0x0147 0)
  let rom_size : Nat :=
    match rom.getD 0x0148 0 with
    | 0x00 => 32 * 1024
    | 0x01 => 64 * 1024
    | 0x02 => 128 * 1024
    | 0x03 => 256 * 1024
    | 0x04 => 512 * 1024
    | 0x05 => 1024 * 1024
    | 0x06 => 2048 * 1024
    | 0x07 => 4096 * 1024
    | 0x08 => 8192 * 1024
    | _ => 32 * 1024
  let ram_size : Nat :=
    match rom.getD 0x0149 0 with
    | 0x00 => 0
    | 0x01 => 2 * 1024
    | 0x02 => 8 * 1024
    | 0x03 => 32 * 1024
    | 0x04 => 128 * 1024
    | 0x05 => 64 * 1024
    | _ => 0
  let header_checksum := rom.getD 0x014D 0
  let checksum := header_checksum_fold rom
  let checksum_valid := checksum == header_checksum
  Except.ok { title := title, cartridge_type := cartridge_type,
              rom_size := rom_size, ram_size := ram_size,
              header_checksum := header_checksum,
              checksum_valid := checksum_valid }

/-- `Cartridge::from_bytes`. -/
def from_bytes (rom : List Nat) : Except String Cartridge :=
  if rom.length < 0x150 then
    Except.error "ROM too small (must be at least 336 bytes for header)"
  else
    match parse_header rom with
    | Except.ok info => Except.ok { rom := rom, info := info }
    | Except.error e => Except.error e

end Cartridge


/-! ## Spec-side definitions used by the claim statements -/

/-! Spec-side definitions (from the spec text, for refinement claims). -/

/-- Spec §4.3: the selected counter bit position for `TAC[1:0]`
(`00 → 9`, `01 → 3`, `10 → 5`, `11 → 7`). -/
def spec_selected_bit (tac : Nat) : Nat :=
  match tac &&& 0x03 with
  | 0 => 9
  | 1 => 3
  | 2 => 5
  | _ => 7

/-- Spec §4.3: whether the selected counter bit is set. -/
def spec_bit_set (counter tac : Nat) : Bool :=
  counter &&& (1 <<< spec_selected_bit tac) != 0

/-- Spec §4.3: `edge = selected_bit AND timer_enabled`. -/
def spec_edge (counter tac : Nat) : Bool :=
  spec_bit_set counter tac && (tac &&& 0x04 != 0)

/-- Spec §4.3 increment rule, one T-cycle advance: increment TIMA
exactly on a falling edge across the counter increment. -/
def spec_tick_one (t : Timer) : Timer :=
  let t' := { t with internal_counter := (t.internal_counter + 1) % 65536 }
  if spec_edge t.internal_counter t.tac && !(spec_edge t'.internal_counter t.tac) then
    t'.increment_tima
  else t'

/-- Spec §4.3 increment rule iterated over an advance of `cycles`. -/
def spec_tick (t : Timer) : Nat → Timer
  | 0 => t
  | n + 1 => spec_tick (spec_tick_one t) n

/-- A bus address whose read/write semantics are a plain RAM cell
(VRAM, external RAM, WRAM, echo RAM, OAM, HRAM, or the IE byte). -/
def plain_ram (a : Nat) : Prop :=
  (0x8000 ≤ a ∧ a ≤ 0xFE9F) ∨ (0xFF80 ≤ a ∧ a ≤ 0xFFFF)

instance (a : Nat) : Decidable (plain_ram a) := by
  unfold plain_ram
  infer_instance

/-- Well-formed bus state: ROM is the fixed 32 KiB buffer and every
stored value is a byte. -/
def Bus.Wf (b : Bus) : Prop :=
  b.rom.length = 0x8000 ∧ (∀ x ∈ b.rom, x < 256) ∧
  (∀ i, b.vram i < 256) ∧ (∀ i, b.external_ram i < 256) ∧
  (∀ i, b.wram i < 256) ∧ (∀ i, b.hram i < 256) ∧
  (∀ i, b.io i < 256) ∧ (∀ i, b.oam i < 256) ∧
  b.ie < 256 ∧ b.timer.tima < 256 ∧ b.timer.tma < 256 ∧ b.timer.tac < 256

/-! ## Sanity checks mirroring the Rust unit tests -/

set_option maxRecDepth 8000 in
example : (Timer.tick { Timer.new with internal_counter := 255 } 1).div = 1 := by decide
set_option maxRecDepth 8000 in
example :
    (Timer.tick { Timer.new with internal_counter := 0, tima := 0xFF, tma := 0x42, tac := 0x05 } 16).tima
      = 0x42 := by decide
set_option maxRecDepth 8000 in
example :
    (Timer.tick { Timer.new with internal_counter := 0, tima := 0xFF, tma := 0x42, tac := 0x05 } 16).interrupt_requested
      = true := by decide
set_option maxRecDepth 8000 in
example :
    (Timer.tick { Timer.new with internal_counter := 0, tima := 0, tac := 0x05 } 16).tima = 1 := by
  decide
example : ((Bus.new.write16 0xC000 0x1234).read 0xC000) = some 0x34 := by decide
example : ((Bus.new.write16 0xC000 0x1234).read 0xC001) = some 0x12 := by decide
example : ((Bus.new.write16 0xC000 0x1234).read16 0xC000) = some 0x1234 := by decide
example : ((Bus.new.write 0xC000 0xAB).read 0xE000) = some 0xAB := by decide
example : ((Bus.new.write 0xFF04 0x42).read 0xFF04) = some 0x00 := by decide
example : (Bus.new.read 0xFEA0) = some 0xFF := by decide

example :
    (Cpu.step { Cpu.new with regs := { Registers.new with pc := 0xC000 } } Bus.new).map
        (fun r => (r.1.regs.pc, r.2.2))
      = some (0xC001, 4) := by decide

example :
    (Cpu.step { Cpu.new with regs := { Registers.new with pc := 0xC000 } }
        { Bus.new with wram := setAt (fun _ => 0) 0 0xFB }).map
        (fun r => (r.1.ime, r.1.ime_scheduled, r.2.2))
      = some (false, true, 4) := by decide

example :
    (Cpu.step { Cpu.new with regs := { Registers.new with pc := 0xC001 }, ime_scheduled := true }
        { Bus.new with wram := setAt (fun _ => 0) 0 0xFB }).map
        (fun r => (r.1.ime, r.1.ime_scheduled, r.2.2))
      = some (true, false, 4) := by decide

/-! ## Theorems for the claims -/

-- helper lemmas

theorem get_timer_bit_eq (t : Timer) :
    t.get_timer_bit = spec_bit_set t.internal_counter t.tac := rfl

theorem timer_enabled_eq (t : Timer) :
    t.timer_enabled = (t.tac &&& 0x04 != 0) := rfl

theorem tick_one_eq_spec (t : Timer) : t.tick_one = spec_tick_one t := by
  unfold Timer.tick_one spec_tick_one
  simp only [get_timer_bit_eq, timer_enabled_eq, spec_edge]

/-- C2: For every Timer state and every T-cycle advance performed by
`Timer.tick`, TIMA is incremented exactly when the value of
(selected counter bit AND timer enabled) falls from true to false
across the increment of `internal_counter`, where the selected bit
position is 9, 3, 5, 7 for `TAC[1:0] = 00, 01, 10, 11` and enabled
means `(TAC & 0x04) != 0` (the code's tick loop coincides with the
spec-side falling-edge rule); and DIV as read from the Bus at
`0xFF04` is always the upper 8 bits of `internal_counter`. -/
theorem timer_increment_rule_and_div :
    (∀ (t : Timer) (cycles : Nat), t.tick cycles = spec_tick t cycles) ∧
    (∀ bus : Bus, bus.timer.internal_counter < 65536 →
      bus.read 0xFF04 = some (bus.timer.internal_counter >>> 8)) := by
  constructor
  · intro t cycles
    induction cycles generalizing t with
    | zero => rfl
    | succ n ih =>
      show (t.tick_one).tick n = spec_tick (spec_tick_one t) n
      rw [tick_one_eq_spec, ih]
  · intro bus h
    show some (bus.read_io 0xFF04) = _
    have : bus.read_io 0xFF04 = bus.timer.div := rfl
    rw [this]
    unfold Timer.div
    congr 1
    have h2 : bus.timer.internal_counter >>> 8 < 256 := by
      rw [Nat.shiftRight_eq_div_pow]
      omega
    omega

/-- C2 witness -/
theorem timer_increment_rule_and_div_witness :
    Bus.new.timer.internal_counter < 65536 ∧
      Bus.new.read 0xFF04 = some (Bus.new.timer.internal_counter >>> 8) ∧
      Timer.new.tick 3 = spec_tick Timer.new 3 :=
  ⟨by decide, timer_increment_rule_and_div.2 Bus.new (by decide),
    timer_increment_rule_and_div.1 Timer.new 3⟩

/-- C3: Whenever a TIMA increment occurs while TIMA is `0xFF`, TIMA is
set to TMA and `interrupt_requested` is set to true with no delay
cycle; and on the next `Bus.tick` the `interrupt_requested` flag is
drained (cleared) and bit 2 is ORed into the stored IF byte at
`0xFF0F` exactly when the timer had raised the request. -/
theorem tima_overflow_and_bus_tick :
    (∀ t : Timer, t.tima = 0xFF →
      t.increment_tima = { t with tima := t.tma, interrupt_requested := true }) ∧
    (∀ (bus : Bus) (cycles : Nat),
      (bus.tick cycles).timer.interrupt_requested = false ∧
      (bus.tick cycles).io 0x0F =
        (if (bus.timer.tick cycles).interrupt_requested then
          bus.io 0x0F ||| 0x04 else bus.io 0x0F)) := by
  constructor
  · intro t h
    unfold Timer.increment_tima
    rw [h]
    simp
  · intro bus cycles
    unfold Bus.tick Timer.take_interrupt
    by_cases h : (bus.timer.tick cycles).interrupt_requested
    · simp [h, setAt]
    · simp [h]

/-- C3 witness -/
theorem tima_overflow_and_bus_tick_witness :
    ({ Timer.new with tima := 0xFF }).increment_tima
        = { internal_counter := 0xABCC, tima := 0, tma := 0, tac := 0,
            interrupt_requested := true } ∧
      (Bus.new.tick 4).timer.interrupt_requested = false :=
  ⟨tima_overflow_and_bus_tick.1 { Timer.new with tima := 0xFF } rfl,
    (tima_overflow_and_bus_tick.2 Bus.new 4).1⟩

/-- C7: For every Bus state and every byte value written, a Bus write
to `0xFF04` routes to `Timer.reset_div`, sets the timer's
`internal_counter` to 0 (so a subsequent read of `0xFF04` returns 0),
and TIMA is incremented by the reset exactly when the selected
counter bit was 1 before the reset, is 0 after, and the timer is
enabled. -/
theorem div_write_resets_counter (bus : Bus) (v : Nat) :
    (bus.write 0xFF04 v).timer = bus.timer.reset_div ∧
    (bus.write 0xFF04 v).timer.internal_counter = 0 ∧
    (bus.write 0xFF04 v).read 0xFF04 = some 0 ∧
    (bus.write 0xFF04 v).timer.tima =
      (if spec_bit_set bus.timer.internal_counter bus.timer.tac
          && !(spec_bit_set 0 bus.timer.tac)
          && (bus.timer.tac &&& 0x04 != 0) then
        (({ bus.timer with internal_counter := 0 }).increment_tima).tima
      else bus.timer.tima) := by
  have hw : (bus.write 0xFF04 v).timer = bus.timer.reset_div := by
    unfold Bus.write Bus.write_io
    norm_num
  have hc : bus.timer.reset_div.internal_counter = 0 := by
    unfold Timer.reset_div
    dsimp only
    split
    · unfold Timer.increment_tima
      split <;> rfl
    · rfl
  refine ⟨hw, by rw [hw]; exact hc, ?_, ?_⟩
  · have hr : (bus.write 0xFF04 v).read 0xFF04
        = some ((bus.write 0xFF04 v).timer.div) := by
      unfold Bus.read Bus.read_io
      norm_num
    rw [hr, hw]
    unfold Timer.div
    rw [hc]
    rfl
  · rw [hw]
    unfold Timer.reset_div
    simp only [get_timer_bit_eq, timer_enabled_eq]
    split <;> rfl

/-- C4 counterexample: the claim "for every 16-bit value v and every
address a, write16(a, v) then (read(a), read(a+1)) = (v & 0xFF, v >> 8)"
is false as stated: at `a = 0x0000` (ROM region, writes ignored) with
`v = 0x0101` on a fresh bus, reading back gives the ROM byte 0,
not `v & 0xFF = 1`. -/
theorem write16_roundtrip_counterexample :
    (Bus.new.write16 0x0000 0x0101).read 0x0000 = some 0x00 ∧
      ¬ ((Bus.new.write16 0x0000 0x0101).read 0x0000 = some (0x0101 &&& 0xFF)) := by
  decide

theorem write_vram (b : Bus) (a v : Nat) (h1 : 0x8000 ≤ a) (h2 : a ≤ 0x9FFF) :
    b.write a v = { b with vram := setAt b.vram (a - 0x8000) v } := by
  unfold Bus.write
  rw [if_neg (by omega), if_pos (by omega)]

theorem write_ext (b : Bus) (a v : Nat) (h1 : 0xA000 ≤ a) (h2 : a ≤ 0xBFFF) :
    b.write a v = { b with external_ram := setAt b.external_ram (a - 0xA000) v } := by
  unfold Bus.write
  rw [if_neg (by omega), if_neg (by omega), if_pos (by omega)]

theorem write_wram (b : Bus) (a v : Nat) (h1 : 0xC000 ≤ a) (h2 : a ≤ 0xDFFF) :
    b.write a v = { b with wram := setAt b.wram (a - 0xC000) v } := by
  unfold Bus.write
  rw [if_neg (by omega), if_neg (by omega), if_neg (by omega), if_pos (by omega)]

theorem write_echo (b : Bus) (a v : Nat) (h1 : 0xE000 ≤ a) (h2 : a ≤ 0xFDFF) :
    b.write a v = { b with wram := setAt b.wram (a - 0xE000) v } := by
  have hno : ∀ m : Nat, m < 0xE000 → ¬ a ≤ m := fun m hm => by omega
  unfold Bus.write
  rw [if_neg (hno 0x7FFF (by norm_num)),
    if_neg (hno 0x9FFF (by norm_num)),
    if_neg (hno 0xBFFF (by norm_num)),
    if_neg (hno 0xDFFF (by norm_num)),
    if_pos (by omega)]

theorem write_oam (b : Bus) (a v : Nat) (h1 : 0xFE00 ≤ a) (h2 : a ≤ 0xFE9F) :
    b.write a v = { b with oam := setAt b.oam (a - 0xFE00) v } := by
  have hno : ∀ m : Nat, m < 0xFE00 → ¬ a ≤ m := fun m hm => by omega
  unfold Bus.write
  rw [if_neg (hno 0x7FFF (by norm_num)),
    if_neg (hno 0x9FFF (by norm_num)),
    if_neg (hno 0xBFFF (by norm_num)),
    if_neg (hno 0xDFFF (by norm_num)),
    if_neg (hno 0xFDFF (by norm_num)),
    if_pos (by omega)]

theorem write_hram (b : Bus) (a v : Nat) (h1 : 0xFF80 ≤ a) (h2 : a ≤ 0xFFFE) :
    b.write a v = { b with hram := setAt b.hram (a - 0xFF80) v } := by
  have hno : ∀ m : Nat, m < 0xFF80 → ¬ a ≤ m := fun m hm => by omega
  unfold Bus.write
  rw [if_neg (hno 0x7FFF (by norm_num)),
    if_neg (hno 0x9FFF (by norm_num)),
    if_neg (hno 0xBFFF (by norm_num)),
    if_neg (hno 0xDFFF (by norm_num)),
    if_neg (hno 0xFDFF (by norm_num)),
    if_neg (hno 0xFE9F (by norm_num)),
    if_neg (hno 0xFEFF (by norm_num)),
    if_neg (hno 0xFF7F (by norm_num)),
    if_pos (by omega)]

theorem write_ie_reg (b : Bus) (a v : Nat) (h1 : 0xFFFF ≤ a) :
    b.write a v = { b with ie := v } := by
  have hno : ∀ m : Nat, m < 0xFFFF → ¬ a ≤ m := fun m hm => by omega
  unfold Bus.write
  rw [if_neg (hno 0x7FFF (by norm_num)),
    if_neg (hno 0x9FFF (by norm_num)),
    if_neg (hno 0xBFFF (by norm_num)),
    if_neg (hno 0xDFFF (by norm_num)),
    if_neg (hno 0xFDFF (by norm_num)),
    if_neg (hno 0xFE9F (by norm_num)),
    if_neg (hno 0xFEFF (by norm_num)),
    if_neg (hno 0xFF7F (by norm_num)),
    if_neg (hno 0xFFFE (by norm_num))]

theorem read_vram (b : Bus) (a : Nat) (h1 : 0x8000 ≤ a) (h2 : a ≤ 0x9FFF) :
    b.read a = some (b.vram (a - 0x8000)) := by
  unfold Bus.read
  rw [if_neg (by omega), if_neg (by omega), if_pos (by omega)]

theorem read_ext (b : Bus) (a : Nat) (h1 : 0xA000 ≤ a) (h2 : a ≤ 0xBFFF) :
    b.read a = some (b.external_ram (a - 0xA000)) := by
  unfold Bus.read
  rw [if_neg (by omega), if_neg (by omega), if_neg (by omega), if_pos (by omega)]

theorem read_wram (b : Bus) (a : Nat) (h1 : 0xC000 ≤ a) (h2 : a ≤ 0xDFFF) :
    b.read a = some (b.wram (a - 0xC000)) := by
  have hno : ∀ m : Nat, m < 0xC000 → ¬ a ≤ m := fun m hm => by omega
  unfold Bus.read
  rw [if_neg (hno 0x3FFF (by norm_num)),
    if_neg (hno 0x7FFF (by norm_num)),
    if_neg (hno 0x9FFF (by norm_num)),
    if_neg (hno 0xBFFF (by norm_num)),
    if_pos (by omega)]

theorem read_echo (b : Bus) (a : Nat) (h1 : 0xE000 ≤ a) (h2 : a ≤ 0xFDFF) :
    b.read a = some (b.wram (a - 0xE000)) := by
  have hno : ∀ m : Nat, m < 0xE000 → ¬ a ≤ m := fun m hm => by omega
  unfold Bus.read
  rw [if_neg (hno 0x3FFF (by norm_num)),
    if_neg (hno 0x7FFF (by norm_num)),
    if_neg (hno 0x9FFF (by norm_num)),
    if_neg (hno 0xBFFF (by norm_num)),
    if_neg (hno 0xDFFF (by norm_num)),
    if_pos (by omega)]

theorem read_oam (b : Bus) (a : Nat) (h1 : 0xFE00 ≤ a) (h2 : a ≤ 0xFE9F) :
    b.read a = some (b.oam (a - 0xFE00)) := by
  have hno : ∀ m : Nat, m < 0xFE00 → ¬ a ≤ m := fun m hm => by omega
  unfold Bus.read
  rw [if_neg (hno 0x3FFF (by norm_num)),
    if_neg (hno 0x7FFF (by norm_num)),
    if_neg (hno 0x9FFF (by norm_num)),
    if_neg (hno 0xBFFF (by norm_num)),
    if_neg (hno 0xDFFF (by norm_num)),
    if_neg (hno 0xFDFF (by norm_num)),
    if_pos (by omega)]

theorem read_hram (b : Bus) (a : Nat) (h1 : 0xFF80 ≤ a) (h2 : a ≤ 0xFFFE) :
    b.read a = some (b.hram (a - 0xFF80)) := by
  have hno : ∀ m : Nat, m < 0xFF80 → ¬ a ≤ m := fun m hm => by omega
  unfold Bus.read
  rw [if_neg (hno 0x3FFF (by norm_num)),
    if_neg (hno 0x7FFF (by norm_num)),
    if_neg (hno 0x9FFF (by norm_num)),
    if_neg (hno 0xBFFF (by norm_num)),
    if_neg (hno 0xDFFF (by norm_num)),
    if_neg (hno 0xFDFF (by norm_num)),
    if_neg (hno 0xFE9F (by norm_num)),
    if_neg (hno 0xFEFF (by norm_num)),
    if_neg (hno 0xFF7F (by norm_num)),
    if_pos (by omega)]

theorem read_ie_reg (b : Bus) (a : Nat) (h1 : 0xFFFF ≤ a) :
    b.read a = some b.ie := by
  have hno : ∀ m : Nat, m < 0xFFFF → ¬ a ≤ m := fun m hm => by omega
  unfold Bus.read
  rw [if_neg (hno 0x3FFF (by norm_num)),
    if_neg (hno 0x7FFF (by norm_num)),
    if_neg (hno 0x9FFF (by norm_num)),
    if_neg (hno 0xBFFF (by norm_num)),
    if_neg (hno 0xDFFF (by norm_num)),
    if_neg (hno 0xFDFF (by norm_num)),
    if_neg (hno 0xFE9F (by norm_num)),
    if_neg (hno 0xFEFF (by norm_num)),
    if_neg (hno 0xFF7F (by norm_num)),
    if_neg (hno 0xFFFE (by norm_num))]

theorem read_write_self (b : Bus) (x v : Nat) (hx : plain_ram x) :
    (b.write x v).read x = some v := by
  rcases hx with ⟨h1, h2⟩ | ⟨h1, h2⟩
  · by_cases c1 : x ≤ 0x9FFF
    · rw [write_vram b x v h1 c1, read_vram _ x h1 c1]
      simp [setAt]
    · by_cases c2 : x ≤ 0xBFFF
      · rw [write_ext b x v (by omega) c2, read_ext _ x (by omega) c2]
        simp [setAt]
      · by_cases c3 : x ≤ 0xDFFF
        · rw [write_wram b x v (by omega) c3, read_wram _ x (by omega) c3]
          simp [setAt]
        · by_cases c4 : x ≤ 0xFDFF
          · rw [write_echo b x v (by omega) c4, read_echo _ x (by omega) c4]
            simp [setAt]
          · rw [write_oam b x v (by omega) h2, read_oam _ x (by omega) h2]
            simp [setAt]
  · by_cases c1 : x ≤ 0xFFFE
    · rw [write_hram b x v h1 c1, read_hram _ x h1 c1]
      simp [setAt]
    · rw [write_ie_reg b x v (by omega), read_ie_reg _ x (by omega)]

theorem read_write_succ (b : Bus) (x v : Nat) (hx : plain_ram x)
    (hx1 : plain_ram (x + 1)) :
    (b.write (x + 1) v).read x = b.read x := by
  rcases hx with ⟨h1, h2⟩ | ⟨h1, h2⟩ <;> rcases hx1 with ⟨h3, h4⟩ | ⟨h3, h4⟩
  · by_cases c1 : x + 1 ≤ 0x9FFF
    · rw [write_vram b (x + 1) v (by omega) c1, read_vram _ x h1 (by omega),
        read_vram b x h1 (by omega)]
      simp only [setAt]
      rw [if_neg (by omega)]
    · by_cases c2 : x ≤ 0x9FFF
      · rw [write_ext b (x + 1) v (by omega) (by omega), read_vram _ x h1 c2,
          read_vram b x h1 c2]
      · by_cases c3 : x + 1 ≤ 0xBFFF
        · rw [write_ext b (x + 1) v (by omega) c3, read_ext _ x (by omega) (by omega),
            read_ext b x (by omega) (by omega)]
          simp only [setAt]
          rw [if_neg (by omega)]
        · by_cases c4 : x ≤ 0xBFFF
          · rw [write_wram b (x + 1) v (by omega) (by omega), read_ext _ x (by omega) c4,
              read_ext b x (by omega) c4]
          · by_cases c5 : x + 1 ≤ 0xDFFF
            · rw [write_wram b (x + 1) v (by omega) c5, read_wram _ x (by omega) (by omega),
                read_wram b x (by omega) (by omega)]
              simp only [setAt]
              rw [if_neg (by omega)]
            · by_cases c6 : x ≤ 0xDFFF
              · rw [write_echo b (x + 1) v (by omega) (by omega), read_wram _ x (by omega) c6,
                  read_wram b x (by omega) c6]
                simp only [setAt]
                rw [if_neg (by omega)]
              · by_cases c7 : x + 1 ≤ 0xFDFF
                · rw [write_echo b (x + 1) v (by omega) c7, read_echo _ x (by omega) (by omega),
                    read_echo b x (by omega) (by omega)]
                  simp only [setAt]
                  rw [if_neg (by omega)]
                · by_cases c8 : x ≤ 0xFDFF
                  · rw [write_oam b (x + 1) v (by omega) (by omega), read_echo _ x (by omega) c8,
                      read_echo b x (by omega) c8]
                  · rw [write_oam b (x + 1) v (by omega) (by omega),
                      read_oam _ x (by omega) (by omega), read_oam b x (by omega) (by omega)]
                    simp only [setAt]
                    rw [if_neg (by omega)]
  · omega
  · omega
  · by_cases c1 : x + 1 ≤ 0xFFFE
    · rw [write_hram b (x + 1) v (by omega) c1, read_hram _ x h1 (by omega),
        read_hram b x h1 (by omega)]
      simp only [setAt]
      rw [if_neg (by omega)]
    · rw [write_ie_reg b (x + 1) v (by omega), read_hram _ x h1 (by omega),
        read_hram b x h1 (by omega)]

/-- C4 (amended): for every 16-bit value `v` and every address `a` such
that both `a` and `(a+1) % 2^16` lie in a plain RAM-backed region
(`0x8000..=0xFE9F` or `0xFF80..=0xFFFF`), performing `write16 a v` and
then reading yields `(read a, read (a+1)) = (v &&& 0xFF, v >>> 8)`,
with the address addition wrapping modulo `2^16`.  (As stated the
claim fails on the ROM, unusable, and quirky I/O regions — see the
counterexample.) -/
theorem write16_roundtrip (bus : Bus) (a v : Nat) (hv : v < 65536)
    (ha : plain_ram a) (ha' : plain_ram ((a + 1) % 65536)) :
    (bus.write16 a v).read a = some (v &&& 0xFF) ∧
      (bus.write16 a v).read ((a + 1) % 65536) = some (v >>> 8) := by
  have hv8 : v >>> 8 < 256 := by
    rw [Nat.shiftRight_eq_div_pow]
    omega
  have hmod : (a + 1) % 65536 = a + 1 := by
    rcases ha with ⟨h1, h2⟩ | ⟨h1, h2⟩ <;> rcases ha' with ⟨h3, h4⟩ | ⟨h3, h4⟩ <;> omega
  rw [hmod] at ha' ⊢
  unfold Bus.write16
  dsimp only
  rw [hmod]
  constructor
  · rw [read_write_succ (bus.write a (v &&& 0xFF)) a ((v >>> 8) % 256) ha ha',
      read_write_self bus a (v &&& 0xFF) ha]
  · rw [read_write_self (bus.write a (v &&& 0xFF)) (a + 1) ((v >>> 8) % 256) ha']
    congr 1
    omega

/-- C4 witness -/
theorem write16_roundtrip_witness :
    (0x1234 : Nat) < 65536 ∧ plain_ram 0xC000 ∧ plain_ram ((0xC000 + 1) % 65536) ∧
      ((Bus.new.write16 0xC000 0x1234).read 0xC000 = some (0x1234 &&& 0xFF) ∧
        (Bus.new.write16 0xC000 0x1234).read ((0xC000 + 1) % 65536) = some (0x1234 >>> 8)) :=
  ⟨by decide, by decide, by decide,
    write16_roundtrip Bus.new 0xC000 0x1234 (by decide) (by decide) (by decide)⟩

theorem lor_lt256 (a b : Nat) (ha : a < 256) (hb : b < 256) : (a ||| b) < 256 := by
  have h : a ||| b = Nat.bitwise Bool.or a b := rfl
  rw [h]
  exact Nat.bitwise_lt_two_pow (f := Bool.or) (n := 8) ha hb

theorem read_rom_range (b : Bus) (a : Nat) (h2 : a ≤ 0x7FFF) :
    b.read a = b.rom.get? a := by
  unfold Bus.read
  by_cases c : a ≤ 0x3FFF
  · rw [if_pos c]
  · rw [if_neg c, if_pos (by omega)]

theorem read_unusable (b : Bus) (a : Nat) (h1 : 0xFEA0 ≤ a) (h2 : a ≤ 0xFEFF) :
    b.read a = some 0xFF := by
  have hno : ∀ m : Nat, m < 0xFEA0 → ¬ a ≤ m := fun m hm => by omega
  unfold Bus.read
  rw [if_neg (hno 0x3FFF (by norm_num)),
    if_neg (hno 0x7FFF (by norm_num)),
    if_neg (hno 0x9FFF (by norm_num)),
    if_neg (hno 0xBFFF (by norm_num)),
    if_neg (hno 0xDFFF (by norm_num)),
    if_neg (hno 0xFDFF (by norm_num)),
    if_neg (hno 0xFE9F (by norm_num)),
    if_pos (by omega)]

theorem read_io_range (b : Bus) (a : Nat) (h1 : 0xFF00 ≤ a) (h2 : a ≤ 0xFF7F) :
    b.read a = some (b.read_io a) := by
  have hno : ∀ m : Nat, m < 0xFF00 → ¬ a ≤ m := fun m hm => by omega
  unfold Bus.read
  rw [if_neg (hno 0x3FFF (by norm_num)),
    if_neg (hno 0x7FFF (by norm_num)),
    if_neg (hno 0x9FFF (by norm_num)),
    if_neg (hno 0xBFFF (by norm_num)),
    if_neg (hno 0xDFFF (by norm_num)),
    if_neg (hno 0xFDFF (by norm_num)),
    if_neg (hno 0xFE9F (by norm_num)),
    if_neg (hno 0xFEFF (by norm_num)),
    if_pos (by omega)]

theorem read_io_byte (b : Bus) (a : Nat) (hwf : Bus.Wf b) : b.read_io a < 256 := by
  obtain ⟨-, -, -, -, -, -, hio, -, -, htima, htma, htac⟩ := hwf
  unfold Bus.read_io
  split_ifs
  · decide
  · exact hio _
  · exact Nat.mod_lt _ (by decide)
  · exact htima
  · exact htma
  · exact lor_lt256 _ _ htac (by decide)
  · exact lor_lt256 _ _ (hio _) (by decide)
  · exact hio _
  · exact hio _
  · exact hio _

theorem write_io_rom (b : Bus) (a v : Nat) : (b.write_io a v).rom = b.rom := by
  unfold Bus.write_io
  dsimp only
  split_ifs <;> rfl

theorem bus_new_rom_length : Bus.new.rom.length = 0x8000 := by
  show (List.replicate 0x8000 0).length = 0x8000
  rw [List.length_replicate]

/-- C8: for every address in `0x0000..=0xFFFF` and every Bus state with
the invariant ROM length `0x8000`, `Bus.read` succeeds (never panics)
and, on a well-formed bus, returns a byte (`< 256`); `Bus.write` never
touches the ROM buffer (so it cannot fail on it); the ROM buffer of a
fresh bus has length `0x8000` and `load_rom` preserves that length,
copying at most that many bytes and ignoring any excess. -/
theorem bus_read_total_write_safe :
    Bus.new.rom.length = 0x8000 ∧
    (∀ (b : Bus) (data : List Nat), (b.load_rom data).rom.length = b.rom.length) ∧
    (∀ (b : Bus) (a v : Nat), (b.write a v).rom = b.rom) ∧
    (∀ (b : Bus) (a : Nat), a < 65536 → b.rom.length = 0x8000 → (b.read a).isSome) ∧
    (∀ (b : Bus) (a : Nat), a < 65536 → b.Wf → ∃ x, b.read a = some x ∧ x < 256) := by
  refine ⟨bus_new_rom_length, ?_, ?_, ?_, ?_⟩
  · intro b data
    unfold Bus.load_rom
    simp only [List.length_append, List.length_take, List.length_drop]
    omega
  · intro b a v
    unfold Bus.write
    split_ifs <;> first | rfl | exact write_io_rom b a v
  · intro b a hlt hlen
    by_cases c1 : a ≤ 0x7FFF
    · rw [read_rom_range b a c1]
      rw [List.get?_eq_get (by omega)]
      rfl
    · by_cases c2 : a ≤ 0x9FFF
      · rw [read_vram b a (by omega) c2]; rfl
      · by_cases c3 : a ≤ 0xBFFF
        · rw [read_ext b a (by omega) c3]; rfl
        · by_cases c4 : a ≤ 0xDFFF
          · rw [read_wram b a (by omega) c4]; rfl
          · by_cases c5 : a ≤ 0xFDFF
            · rw [read_echo b a (by omega) c5]; rfl
            · by_cases c6 : a ≤ 0xFE9F
              · rw [read_oam b a (by omega) c6]; rfl
              · by_cases c7 : a ≤ 0xFEFF
                · rw [read_unusable b a (by omega) c7]; rfl
                · by_cases c8 : a ≤ 0xFF7F
                  · rw [read_io_range b a (by omega) c8]; rfl
                  · by_cases c9 : a ≤ 0xFFFE
                    · rw [read_hram b a (by omega) c9]; rfl
                    · rw [read_ie_reg b a (by omega)]; rfl
  · intro b a hlt hwf
    by_cases c1 : a ≤ 0x7FFF
    · rw [read_rom_range b a c1]
      have ha : a < b.rom.length := by rw [hwf.1]; omega
      exact ⟨b.rom.get ⟨a, ha⟩, List.get?_eq_get ha, hwf.2.1 _ (b.rom.get_mem _ _)⟩
    · by_cases c2 : a ≤ 0x9FFF
      · exact ⟨_, read_vram b a (by omega) c2, hwf.2.2.1 _⟩
      · by_cases c3 : a ≤ 0xBFFF
        · exact ⟨_, read_ext b a (by omega) c3, hwf.2.2.2.1 _⟩
        · by_cases c4 : a ≤ 0xDFFF
          · exact ⟨_, read_wram b a (by omega) c4, hwf.2.2.2.2.1 _⟩
          · by_cases c5 : a ≤ 0xFDFF
            · exact ⟨_, read_echo b a (by omega) c5, hwf.2.2.2.2.1 _⟩
            · by_cases c6 : a ≤ 0xFE9F
              · exact ⟨_, read_oam b a (by omega) c6, hwf.2.2.2.2.2.2.2.1 _⟩
              · by_cases c7 : a ≤ 0xFEFF
                · exact ⟨_, read_unusable b a (by omega) c7, by decide⟩
                · by_cases c8 : a ≤ 0xFF7F
                  · exact ⟨_, read_io_range b a (by omega) c8, read_io_byte b a hwf⟩
                  · by_cases c9 : a ≤ 0xFFFE
                    · exact ⟨_, read_hram b a (by omega) c9, hwf.2.2.2.2.2.1 _⟩
                    · exact ⟨_, read_ie_reg b a (by omega), hwf.2.2.2.2.2.2.2.2.1⟩

/-- Wf holds for the freshly constructed bus. -/
theorem bus_new_wf : Bus.Wf Bus.new := by
  refine ⟨bus_new_rom_length, ?_, ?_, ?_, ?_, ?_, ?_, ?_, by decide, by decide, by decide, by decide⟩
  · intro x hx
    have : x = 0 := by
      have := List.eq_of_mem_replicate hx
      exact this
    omega
  all_goals
    intro i
    show (0 : Nat) < 256
    decide

/-- C8 witness -/
theorem bus_read_total_write_safe_witness :
    (Bus.new.read 0x0100).isSome ∧ ∃ x, Bus.new.read 0xFF0F = some x ∧ x < 256 :=
  ⟨bus_read_total_write_safe.2.2.2.1 Bus.new 0x0100 (by decide) bus_new_rom_length,
    bus_read_total_write_safe.2.2.2.2 Bus.new 0xFF0F (by decide) bus_new_wf⟩

/-- C9: `Cartridge.from_bytes` returns an error exactly when the input
is shorter than `0x150` (336) bytes, and in that case no `Cartridge`
(and hence no emulator, which `Emulator::new` can only build from a
`Cartridge`) is constructed; for every input of at least `0x150` bytes
it succeeds, returning a `Cartridge` whose `checksum_valid` flag
records non-fatally whether the header checksum matches the byte at
`0x014D`. -/
theorem from_bytes_header_check (rom : List Nat) :
    (rom.length < 0x150 →
      Cartridge.from_bytes rom =
        Except.error "ROM too small (must be at least 336 bytes for header)") ∧
    (0x150 ≤ rom.length →
      ∃ cart : Cartridge, Cartridge.from_bytes rom = Except.ok cart ∧
        cart.rom = rom ∧
        cart.info.checksum_valid
          = (header_checksum_fold rom == rom.getD 0x014D 0)) := by
  constructor
  · intro h
    unfold Cartridge.from_bytes
    rw [if_pos h]
  · intro h
    unfold Cartridge.from_bytes
    rw [if_neg (by omega)]
    exact ⟨_, rfl, rfl, rfl⟩

set_option maxRecDepth 4000 in
/-- C9 witness -/
theorem from_bytes_header_check_witness :
    (Cartridge.from_bytes [7] =
      Except.error "ROM too small (must be at least 336 bytes for header)") ∧
    (∃ cart : Cartridge, Cartridge.from_bytes (List.replicate 0x150 0) = Except.ok cart ∧
      cart.rom = List.replicate 0x150 0 ∧
      cart.info.checksum_valid
        = (header_checksum_fold (List.replicate 0x150 0) == (List.replicate 0x150 0).getD 0x014D 0)) :=
  ⟨(from_bytes_header_check [7]).1 (by decide),
    (from_bytes_header_check (List.replicate 0x150 0)).2 (by decide)⟩

theorem read_if_reg (b : Bus) : b.read 0xFF0F = some (b.io 0x0F ||| 0xE0) := by
  rw [read_io_range b 0xFF0F (by decide) (by decide)]
  unfold Bus.read_io
  norm_num

/-- `handle_interrupts` with the two always-successful bus reads
evaluated away. -/
theorem handle_interrupts_eq (cpu : Cpu) (bus : Bus) :
    cpu.handle_interrupts bus =
      (let ie := bus.ie
       let if_reg := bus.io 0x0F ||| 0xE0
       let pending := ie &&& if_reg
       let cpu' := if pending != 0 && cpu.halted then { cpu with halted := false } else cpu
       if !cpu'.ime then some (cpu', bus, 0)
       else
         match get_interrupt_vector ie if_reg with
         | some (vector, bit) =>
           let cpu'' := { cpu' with ime := false }
           let bus := bus.write 0xFF0F (if_reg &&& (bit ^^^ 0xFF))
           let sp1 := wsub16 cpu''.regs.sp 1
           let bus := bus.write sp1 ((cpu''.regs.pc >>> 8) % 256)
           let sp2 := wsub16 sp1 1
           let bus := bus.write sp2 (cpu''.regs.pc &&& 0xFF)
           some ({ cpu'' with regs := { cpu''.regs with sp := sp2, pc := vector } }, bus, 20)
         | none => some (cpu', bus, 0)) := by
  unfold Cpu.handle_interrupts
  rw [read_ie_reg bus 0xFFFF (by omega), read_if_reg bus]
  rfl

theorem get_interrupt_vector_none (ie ifr : Nat) (h : ie &&& ifr = 0) :
    get_interrupt_vector ie ifr = none := by
  unfold get_interrupt_vector
  rw [h]
  rfl

/-- C1: for every CPU and Bus state in which IME is true and bit `k`
(`k < 5`) is the lowest set bit of `ie &&& if_reg` as read via the Bus
from `0xFFFF` and `0xFF0F`, `handle_interrupts` services exactly that
interrupt: it sets IME to false, clears that interrupt's bit in IF via
a Bus write, pushes PC as two bytes (high byte then low byte,
decrementing SP before each byte), sets PC to the vector
`0x40 + 8 * k` (bit 0 → 0x0040, …, bit 4 → 0x0060), and returns 20
T-cycles; when IME is false it returns 0 without pushing, without
touching the Bus, and without changing any register. -/
theorem interrupt_dispatch_correct :
    (∀ (cpu : Cpu) (bus : Bus) (k : Nat),
      cpu.ime = true → k < 5 →
      (bus.ie &&& (bus.io 0x0F ||| 0xE0)) &&& (1 <<< k) ≠ 0 →
      (∀ j, j < k → (bus.ie &&& (bus.io 0x0F ||| 0xE0)) &&& (1 <<< j) = 0) →
      cpu.handle_interrupts bus =
        some ({ cpu with
                halted := false, ime := false,
                regs := { cpu.regs with
                          sp := wsub16 (wsub16 cpu.regs.sp 1) 1,
                          pc := 0x40 + 8 * k } },
          ((bus.write 0xFF0F
                ((bus.io 0x0F ||| 0xE0) &&& ((1 <<< k) ^^^ 0xFF))).write
              (wsub16 cpu.regs.sp 1) ((cpu.regs.pc >>> 8) % 256)).write
            (wsub16 (wsub16 cpu.regs.sp 1) 1) (cpu.regs.pc &&& 0xFF),
          20)) ∧
    (∀ (cpu : Cpu) (bus : Bus), cpu.ime = false →
      ∃ cpu' : Cpu, cpu.handle_interrupts bus = some (cpu', bus, 0) ∧
        cpu'.regs = cpu.regs ∧ cpu'.ime = false ∧
        cpu'.ime_scheduled = cpu.ime_scheduled) := by
  constructor
  · intro cpu bus k hime hk hbit hlow
    obtain ⟨regs, halted, ime, sched⟩ := cpu
    simp only at hime
    subst hime
    rw [handle_interrupts_eq]
    dsimp only
    have hp : (bus.ie &&& (bus.io 0x0F ||| 0xE0)) ≠ 0 := by
      intro h0
      apply hbit
      rw [h0]
      simp [Nat.zero_and]
    have hpb : (bus.ie &&& (bus.io 0x0F ||| 0xE0) != 0) = true := by
      simpa using hp
    rw [hpb]
    simp only [Bool.true_and]
    have hc' : (if halted = true
          then ({ regs := regs, halted := false, ime := true, ime_scheduled := sched } : Cpu)
          else { regs := regs, halted := halted, ime := true, ime_scheduled := sched })
        = { regs := regs, halted := false, ime := true, ime_scheduled := sched } := by
      cases halted <;> rfl
    rw [hc']
    rw [if_neg (by simp)]
    have hl : ∀ j, j < k → bus.ie &&& (bus.io 0x0F ||| 0xE0) &&& (2 ^ j) = 0 := by
      intro j hj
      have := hlow j hj
      rwa [Nat.shiftLeft_eq, one_mul] at this
    have hb : bus.ie &&& (bus.io 0x0F ||| 0xE0) &&& (2 ^ k) ≠ 0 := by
      rwa [Nat.shiftLeft_eq, one_mul] at hbit
    interval_cases k
    · unfold get_interrupt_vector
      dsimp only
      rw [if_pos (show bus.ie &&& (bus.io 0x0F ||| 0xE0) &&& 1 ≠ 0 from hb)]
      rfl
    · unfold get_interrupt_vector
      dsimp only
      rw [if_neg (not_not_intro (show bus.ie &&& (bus.io 0x0F ||| 0xE0) &&& 1 = 0 from hl 0 (by omega))),
        if_pos (show bus.ie &&& (bus.io 0x0F ||| 0xE0) &&& 2 ≠ 0 from hb)]
      rfl
    · unfold get_interrupt_vector
      dsimp only
      rw [if_neg (not_not_intro (show bus.ie &&& (bus.io 0x0F ||| 0xE0) &&& 1 = 0 from hl 0 (by omega))),
        if_neg (not_not_intro (show bus.ie &&& (bus.io 0x0F ||| 0xE0) &&& 2 = 0 from hl 1 (by omega))),
        if_pos (show bus.ie &&& (bus.io 0x0F ||| 0xE0) &&& 4 ≠ 0 from hb)]
      rfl
    · unfold get_interrupt_vector
      dsimp only
      rw [if_neg (not_not_intro (show bus.ie &&& (bus.io 0x0F ||| 0xE0) &&& 1 = 0 from hl 0 (by omega))),
        if_neg (not_not_intro (show bus.ie &&& (bus.io 0x0F ||| 0xE0) &&& 2 = 0 from hl 1 (by omega))),
        if_neg (not_not_intro (show bus.ie &&& (bus.io 0x0F ||| 0xE0) &&& 4 = 0 from hl 2 (by omega))),
        if_pos (show bus.ie &&& (bus.io 0x0F ||| 0xE0) &&& 8 ≠ 0 from hb)]
      rfl
    · unfold get_interrupt_vector
      dsimp only
      rw [if_neg (not_not_intro (show bus.ie &&& (bus.io 0x0F ||| 0xE0) &&& 1 = 0 from hl 0 (by omega))),
        if_neg (not_not_intro (show bus.ie &&& (bus.io 0x0F ||| 0xE0) &&& 2 = 0 from hl 1 (by omega))),
        if_neg (not_not_intro (show bus.ie &&& (bus.io 0x0F ||| 0xE0) &&& 4 = 0 from hl 2 (by omega))),
        if_neg (not_not_intro (show bus.ie &&& (bus.io 0x0F ||| 0xE0) &&& 8 = 0 from hl 3 (by omega))),
        if_pos (show bus.ie &&& (bus.io 0x0F ||| 0xE0) &&& 16 ≠ 0 from hb)]
      rfl
  · intro cpu bus hime
    rw [handle_interrupts_eq]
    dsimp only
    by_cases hw : ((bus.ie &&& (bus.io 0x0F ||| 0xE0) != 0) && cpu.halted) = true
    · rw [if_pos hw]
      rw [show (!({ cpu with halted := false } : Cpu).ime) = true by simp [hime]]
      exact ⟨_, rfl, rfl, hime, rfl⟩
    · rw [if_neg hw]
      rw [show (!cpu.ime) = true by simp [hime]]
      exact ⟨_, rfl, rfl, hime, rfl⟩

/-- C1 witness -/
theorem interrupt_dispatch_correct_witness :
    (let cpu : Cpu := { Cpu.new with ime := true }
     let bus : Bus := { Bus.new with ie := 0x1F, io := setAt (fun _ => 0) 0x0F 0x04 }
     cpu.handle_interrupts bus =
       some ({ cpu with
               halted := false, ime := false,
               regs := { cpu.regs with
                         sp := wsub16 (wsub16 cpu.regs.sp 1) 1,
                         pc := 0x40 + 8 * 2 } },
         ((bus.write 0xFF0F
               ((bus.io 0x0F ||| 0xE0) &&& ((1 <<< 2) ^^^ 0xFF))).write
             (wsub16 cpu.regs.sp 1) ((cpu.regs.pc >>> 8) % 256)).write
           (wsub16 (wsub16 cpu.regs.sp 1) 1) (cpu.regs.pc &&& 0xFF),
         20)) ∧
    (∃ cpu' : Cpu, Cpu.new.handle_interrupts Bus.new = some (cpu', Bus.new, 0) ∧
      cpu'.regs = Cpu.new.regs ∧ cpu'.ime = false ∧
      cpu'.ime_scheduled = Cpu.new.ime_scheduled) :=
  ⟨interrupt_dispatch_correct.1 { Cpu.new with ime := true }
      { Bus.new with ie := 0x1F, io := setAt (fun _ => 0) 0x0F 0x04 } 2
      rfl (by omega) (by decide) (by decide),
    interrupt_dispatch_correct.2 Cpu.new Bus.new rfl⟩

/-- C5: the CPU leaves the Halted state at entry to the next step
(inside `handle_interrupts`, which `step` calls first) whenever any
bit of IE AND IF (as read via the Bus) is set, regardless of whether
IME is true; and while the CPU is halted with no such bit set, `step`
returns 4 T-cycles and changes nothing — in particular it does not
advance PC. -/
theorem halt_wake_and_idle :
    (∀ (cpu : Cpu) (bus : Bus), cpu.halted = true →
      (bus.ie &&& (bus.io 0x0F ||| 0xE0)) ≠ 0 →
      ∃ (c' : Cpu) (b' : Bus) (n : Nat),
        cpu.handle_interrupts bus = some (c', b', n) ∧ c'.halted = false) ∧
    (∀ (cpu : Cpu) (bus : Bus), cpu.halted = true →
      (bus.ie &&& (bus.io 0x0F ||| 0xE0)) = 0 →
      cpu.step bus = some (cpu, bus, 4)) := by
  constructor
  · intro cpu bus hh hp
    rw [handle_interrupts_eq]
    dsimp only
    have hpb : ((bus.ie &&& (bus.io 0x0F ||| 0xE0) != 0) && cpu.halted) = true := by
      simp [hh, hp]
    rw [if_pos hpb]
    by_cases hime : cpu.ime
    · rw [if_neg (by simp [hime])]
      cases hv : get_interrupt_vector bus.ie (bus.io 0x0F ||| 0xE0) with
      | none => exact ⟨_, _, _, rfl, rfl⟩
      | some p =>
        obtain ⟨v, bit⟩ := p
        exact ⟨_, _, _, rfl, rfl⟩
    · rw [if_pos (by simpa using hime)]
      exact ⟨_, _, _, rfl, rfl⟩
  · intro cpu bus hh hp
    unfold Cpu.step
    rw [handle_interrupts_eq]
    dsimp only
    have hpb : (bus.ie &&& (bus.io 0x0F ||| 0xE0) != 0) = false := by
      simp [hp]
    rw [hpb]
    simp only [Bool.false_and, if_neg]
    rw [get_interrupt_vector_none bus.ie (bus.io 0x0F ||| 0xE0) hp]
    by_cases hime : cpu.ime
    · rw [if_neg (by simp [hime])]
      simp [hh]
    · rw [if_pos (by simpa using hime)]
      simp [hh]

/-- C5 witness -/
theorem halt_wake_and_idle_witness :
    (∃ (c' : Cpu) (b' : Bus) (n : Nat),
      ({ Cpu.new with halted := true } : Cpu).handle_interrupts
          { Bus.new with ie := 0x04, io := setAt (fun _ => 0) 0x0F 0x04 }
        = some (c', b', n) ∧ c'.halted = false) ∧
    ({ Cpu.new with halted := true } : Cpu).step Bus.new
      = some ({ Cpu.new with halted := true }, Bus.new, 4) :=
  ⟨halt_wake_and_idle.1 { Cpu.new with halted := true }
      { Bus.new with ie := 0x04, io := setAt (fun _ => 0) 0x0F 0x04 } rfl (by decide),
    halt_wake_and_idle.2 { Cpu.new with halted := true } Bus.new rfl (by decide)⟩

/-- `step` on a quiet CPU (IME off, not halted): interrupt dispatch is
a no-op and the step is fetch-execute plus the deferred-EI latch. -/
theorem step_eq_of_quiet (cpu : Cpu) (bus : Bus)
    (hime : cpu.ime = false) (hh : cpu.halted = false) :
    cpu.step bus =
      (do
        let (c1, opcode) ← cpu.fetch bus
        let (c2, b2, cycles) ← c1.execute bus opcode
        let c3 := if cpu.ime_scheduled then { c2 with ime := true, ime_scheduled := false } else c2
        some (c3, b2, cycles)) := by
  unfold Cpu.step
  rw [handle_interrupts_eq]
  dsimp only
  simp only [hh, hime, Bool.and_false, Bool.false_eq_true, if_false, Bool.not_false,
    if_true, Option.bind_eq_bind, Option.some_bind]
  rw [if_neg (by decide)]

/-- C6: executing EI does not enable IME during the step in which EI
executes (the step ends with IME still false and `ime_scheduled`
latched); IME becomes true only after the next instruction completes
(`step` snapshots `ime_scheduled` before fetching and applies it after
execution, clearing `ime_scheduled`); whereas executing RETI sets IME
to true immediately within its own step, returning 16 T-cycles, with
no one-instruction delay. -/
theorem ei_delay_reti_immediate :
    (∀ (cpu : Cpu) (bus : Bus),
      cpu.ime = false → cpu.halted = false → cpu.ime_scheduled = false →
      bus.read cpu.regs.pc = some 0xFB →
      cpu.step bus =
        some ({ cpu with
                regs := { cpu.regs with pc := (cpu.regs.pc + 1) % 65536 },
                ime_scheduled := true }, bus, 4)) ∧
    (∀ (cpu : Cpu) (bus : Bus) (c' : Cpu) (b' : Bus) (n : Nat),
      cpu.ime_scheduled = true → cpu.ime = false → cpu.halted = false →
      cpu.step bus = some (c', b', n) →
      c'.ime = true ∧ c'.ime_scheduled = false) ∧
    (∀ (cpu : Cpu) (bus : Bus) (c' : Cpu) (b' : Bus) (n : Nat),
      cpu.ime = false → cpu.halted = false → cpu.ime_scheduled = false →
      bus.read cpu.regs.pc = some 0xD9 →
      cpu.step bus = some (c', b', n) →
      c'.ime = true ∧ n = 16) := by
  refine ⟨?_, ?_, ?_⟩
  · intro cpu bus hime hh hsch hread
    rw [step_eq_of_quiet cpu bus hime hh]
    unfold Cpu.fetch
    rw [hread]
    simp only [Option.bind_eq_bind, Option.some_bind]
    have hex : (cpu.setPC ((cpu.regs.pc + 1) % 65536)).execute bus 0xFB =
        some ({ cpu.setPC ((cpu.regs.pc + 1) % 65536) with ime_scheduled := true }, bus, 4) := rfl
    rw [hex]
    simp only [Option.some_bind, hsch, Bool.false_eq_true, if_false]
    rfl
  · intro cpu bus c' b' n hsch hime hh hstep
    rw [step_eq_of_quiet cpu bus hime hh] at hstep
    cases hf : cpu.fetch bus with
    | none =>
      rw [hf] at hstep
      simp at hstep
    | some p =>
      obtain ⟨c1, op⟩ := p
      rw [hf] at hstep
      simp only [Option.bind_eq_bind, Option.some_bind] at hstep
      cases he : c1.execute bus op with
      | none =>
        rw [he] at hstep
        simp at hstep
      | some q =>
        obtain ⟨c2, b2, cyc⟩ := q
        rw [he] at hstep
        rw [hsch] at hstep
        simp only [if_true, Option.some_bind] at hstep
        injection hstep with h
        rw [Prod.mk.injEq, Prod.mk.injEq] at h
        obtain ⟨h1, h2, h3⟩ := h
        subst h1
        exact ⟨rfl, rfl⟩
  · intro cpu bus c' b' n hime hh hsch hread hstep
    rw [step_eq_of_quiet cpu bus hime hh] at hstep
    unfold Cpu.fetch at hstep
    rw [hread] at hstep
    simp only [Option.bind_eq_bind, Option.some_bind] at hstep
    have hex : (cpu.setPC ((cpu.regs.pc + 1) % 65536)).execute bus 0xD9 =
        (do
          let (c2, v) ← (cpu.setPC ((cpu.regs.pc + 1) % 65536)).pop bus
          some ({ c2.setPC v with ime := true }, bus, 16)) := rfl
    rw [hex] at hstep
    cases hp : (cpu.setPC ((cpu.regs.pc + 1) % 65536)).pop bus with
    | none =>
      rw [hp] at hstep
      simp at hstep
    | some q =>
      obtain ⟨c2, v⟩ := q
      rw [hp] at hstep
      simp only [Option.bind_eq_bind, Option.some_bind, hsch, Bool.false_eq_true,
        if_false] at hstep
      injection hstep with h
      rw [Prod.mk.injEq, Prod.mk.injEq] at h
      obtain ⟨h1, h2, h3⟩ := h
      subst h1
      subst h3
      exact ⟨rfl, rfl⟩

/-- C6 witness -/
theorem ei_delay_reti_immediate_witness :
    (({ Cpu.new with regs := { Registers.new with pc := 0xC000 } } : Cpu).step
        { Bus.new with wram := setAt (fun _ => 0) 0 0xFB } =
      some ({ Cpu.new with
              regs := { Registers.new with pc := 0xC001 },
              ime_scheduled := true },
        { Bus.new with wram := setAt (fun _ => 0) 0 0xFB }, 4)) ∧
    (({ regs := { Registers.new with pc := 0xC001 }, halted := false, ime := true,
          ime_scheduled := false } : Cpu).ime = true) ∧
    (({ regs := { Registers.new with sp := 0, pc := 0 }, halted := false, ime := true,
          ime_scheduled := false } : Cpu).ime = true ∧ (16 : Nat) = 16) := by
  refine ⟨?_, ?_, ?_⟩
  · have h := ei_delay_reti_immediate.1
      { Cpu.new with regs := { Registers.new with pc := 0xC000 } }
      { Bus.new with wram := setAt (fun _ => 0) 0 0xFB } rfl rfl rfl (by rfl)
    exact h
  · exact (ei_delay_reti_immediate.2.1
      { Cpu.new with regs := { Registers.new with pc := 0xC001 }, ime_scheduled := true }
      Bus.new
      { regs := { Registers.new with pc := 0xC002 }, halted := false, ime := true,
          ime_scheduled := false }
      Bus.new 4 rfl rfl rfl (by rfl)).1.symm ▸ rfl
  · exact ei_delay_reti_immediate.2.2
      { Cpu.new with regs := { Registers.new with pc := 0xC000 } }
      { Bus.new with wram := setAt (fun _ => 0) 0 0xD9 }
      { regs := { Registers.new with sp := 0, pc := 0 }, halted := false, ime := true,
          ime_scheduled := false }
      { Bus.new with wram := setAt (fun _ => 0) 0 0xD9 } 16 rfl rfl rfl (by rfl) (by rfl)

theorem get_interrupt_vector_none_masked (ie ifr : Nat)
    (h : (ie &&& ifr) &&& 0x1F = 0) : get_interrupt_vector ie ifr = none := by
  have key : ∀ m : Nat, 31 &&& m = m → ie &&& ifr &&& m = 0 := by
    intro m hm
    calc ie &&& ifr &&& m = ie &&& ifr &&& (31 &&& m) := by rw [hm]
      _ = ie &&& ifr &&& 31 &&& m := (Nat.and_assoc (ie &&& ifr) 31 m).symm
      _ = 0 &&& m := by rw [h]
      _ = 0 := Nat.zero_and m
  unfold get_interrupt_vector
  dsimp only
  rw [if_neg (not_not_intro (key 1 rfl)), if_neg (not_not_intro (key 2 rfl)),
    if_neg (not_not_intro (key 4 rfl)), if_neg (not_not_intro (key 8 rfl)),
    if_neg (not_not_intro (key 16 rfl))]

/-- `handle_interrupts` does nothing on a non-halted CPU when IME is off
or no enabled interrupt bit is pending. -/
theorem handle_interrupts_noop (cpu : Cpu) (bus : Bus) (hh : cpu.halted = false)
    (hq : cpu.ime = true → (bus.ie &&& (bus.io 0x0F ||| 0xE0)) &&& 0x1F = 0) :
    cpu.handle_interrupts bus = some (cpu, bus, 0) := by
  rw [handle_interrupts_eq]
  dsimp only
  rw [hh]
  simp only [Bool.and_false, Bool.false_eq_true, if_false]
  by_cases hime : cpu.ime
  · rw [if_neg (by simp [hime])]
    rw [get_interrupt_vector_none_masked bus.ie _ (hq hime)]
  · rw [if_pos (by simp [hime])]

/-- C10: when DI executes as the instruction immediately following EI
(`ime_scheduled` still latched), the step nevertheless ends with IME
true: `step` snapshots `ime_scheduled` before fetching, DI clears
`ime` and `ime_scheduled` during execution, and the pre-snapshot then
re-enables IME after the instruction completes; in every other
situation (no scheduled enable pending) DI leaves IME false and
clears any scheduled enable. -/
theorem di_after_ei_reenables :
    (∀ (cpu : Cpu) (bus : Bus),
      cpu.ime_scheduled = true → cpu.ime = false → cpu.halted = false →
      bus.read cpu.regs.pc = some 0xF3 →
      cpu.step bus =
        some ({ cpu with
                regs := { cpu.regs with pc := (cpu.regs.pc + 1) % 65536 },
                ime := true, ime_scheduled := false }, bus, 4)) ∧
    (∀ (cpu : Cpu) (bus : Bus),
      cpu.ime_scheduled = false → cpu.halted = false →
      (cpu.ime = true → (bus.ie &&& (bus.io 0x0F ||| 0xE0)) &&& 0x1F = 0) →
      bus.read cpu.regs.pc = some 0xF3 →
      cpu.step bus =
        some ({ cpu with
                regs := { cpu.regs with pc := (cpu.regs.pc + 1) % 65536 },
                ime := false, ime_scheduled := false }, bus, 4)) := by
  constructor
  · intro cpu bus hsch hime hh hread
    rw [step_eq_of_quiet cpu bus hime hh]
    unfold Cpu.fetch
    rw [hread]
    simp only [Option.bind_eq_bind, Option.some_bind]
    have hex : (cpu.setPC ((cpu.regs.pc + 1) % 65536)).execute bus 0xF3 =
        some ({ cpu.setPC ((cpu.regs.pc + 1) % 65536) with
                ime := false, ime_scheduled := false }, bus, 4) := rfl
    rw [hex]
    simp only [Option.some_bind, hsch, if_true]
    rfl
  · intro cpu bus hsch hh hq hread
    unfold Cpu.step
    rw [handle_interrupts_noop cpu bus hh hq]
    simp only [Option.bind_eq_bind, Option.some_bind]
    rw [if_neg (by decide)]
    rw [if_neg (by simp [hh])]
    unfold Cpu.fetch
    rw [hread]
    simp only [Option.bind_eq_bind, Option.some_bind]
    have hex : (cpu.setPC ((cpu.regs.pc + 1) % 65536)).execute bus 0xF3 =
        some ({ cpu.setPC ((cpu.regs.pc + 1) % 65536) with
                ime := false, ime_scheduled := false }, bus, 4) := rfl
    rw [hex]
    simp only [Option.some_bind, hsch, Bool.false_eq_true, if_false]
    rfl

/-- C10 witness -/
theorem di_after_ei_reenables_witness :
    (({ Cpu.new with
        regs := { Registers.new with pc := 0xC000 },
        ime_scheduled := true } : Cpu).step
        { Bus.new with wram := setAt (fun _ => 0) 0 0xF3 } =
      some ({ Cpu.new with
              regs := { Registers.new with pc := 0xC001 },
              ime := true, ime_scheduled := false },
        { Bus.new with wram := setAt (fun _ => 0) 0 0xF3 }, 4)) ∧
    (({ Cpu.new with
        regs := { Registers.new with pc := 0xC000 },
        ime := true } : Cpu).step
        { Bus.new with wram := setAt (fun _ => 0) 0 0xF3 } =
      some ({ Cpu.new with
              regs := { Registers.new with pc := 0xC001 },
              ime := false, ime_scheduled := false },
        { Bus.new with wram := setAt (fun _ => 0) 0 0xF3 }, 4)) := by
  constructor
  · exact di_after_ei_reenables.1
      { Cpu.new with
        regs := { Registers.new with pc := 0xC000 }, ime_scheduled := true }
      { Bus.new with wram := setAt (fun _ => 0) 0 0xF3 } rfl rfl rfl (by rfl)
  · exact di_after_ei_reenables.2
      { Cpu.new with
        regs := { Registers.new with pc := 0xC000 }, ime := true }
      { Bus.new with wram := setAt (fun _ => 0) 0 0xF3 } rfl rfl (fun _ => by decide) (by rfl)
